import Mathlib

/-! Service-terminal command handlers, display flush check and periodic
GPIO component.

A shallow embedding of three templates: `app_console_commands.c` (namespace
`AppConsole`), `display_flush_template.c` (`DisplayFlush`) and
`esp32_component_template.c` (`ComponentTemplate`).  C strings are Lean
`String`s holding the bytes before the terminating NUL, `argc`/`argv` is a
`List String` (`argc` is its length), `printf` appends to the text a handler
returns, and every call into a collaborator (log-level-set, restart, the
settings hooks) is recorded, in order, in the `calls` trace the handler
returns.  Machine integers are `Int`/`Nat` with the wrap-around written out,
NULL pointers are `none`, and file-scope variables are an explicit state.
-/

/-! ## ESP-IDF error codes -/

namespace EspIdf

/-- ESP-IDF `esp_err_t` (`esp_err.h`): a signed 32-bit error code. -/
abbrev esp_err_t := Int

/-- `ESP_OK`. -/
def ESP_OK : esp_err_t := 0
/-- `ESP_FAIL`. -/
def ESP_FAIL : esp_err_t := -1
/-- `ESP_ERR_NO_MEM`. -/
def ESP_ERR_NO_MEM : esp_err_t := 0x101
/-- `ESP_ERR_INVALID_ARG`. -/
def ESP_ERR_INVALID_ARG : esp_err_t := 0x102
/-- `ESP_ERR_INVALID_STATE`. -/
def ESP_ERR_INVALID_STATE : esp_err_t := 0x103
/-- `ESP_ERR_INVALID_SIZE`. -/
def ESP_ERR_INVALID_SIZE : esp_err_t := 0x104
/-- `ESP_ERR_NOT_FOUND`. -/
def ESP_ERR_NOT_FOUND : esp_err_t := 0x105
/-- `ESP_ERR_NOT_SUPPORTED`. -/
def ESP_ERR_NOT_SUPPORTED : esp_err_t := 0x106

end EspIdf

namespace AppConsole

open EspIdf

/-! ## C library and ESP-IDF types used by the handlers -/

/-- Comparison of two NUL-terminated byte strings given by their contents:
the first position where they differ decides, and a string that ends first
sorts first (its terminator is the smallest byte). -/
def strcmp_chars : List Char → List Char → Int
  | [], [] => 0
  | [], _ :: _ => -1
  | _ :: _, [] => 1
  | a :: as, b :: bs =>
    if a = b then strcmp_chars as bs else if a < b then -1 else 1

/-- Sign of the C library `strcmp`: `0` for equal strings, negative when `a`
sorts first, positive otherwise.  Code-point order is the unsigned byte order
of the UTF-8 encoding. -/
def strcmp (a b : String) : Int :=
  strcmp_chars a.data b.data

/-- The token `argv[i]`.  Every use in the handlers is guarded by an `argc`
test that puts `i` in range; the default is never observed. -/
def argv_at (argv : List String) (i : Nat) : String :=
  argv.getD i ""

/-- ESP-IDF `esp_log_level_t` (`esp_log.h`), the levels the handler names. -/
inductive esp_log_level_t
  | ESP_LOG_NONE
  | ESP_LOG_ERROR
  | ESP_LOG_WARN
  | ESP_LOG_INFO
  | ESP_LOG_DEBUG
  | ESP_LOG_VERBOSE
  deriving DecidableEq, Repr

open esp_log_level_t

/-- A call made by a handler into a collaborator outside this file. -/
inductive Call
  | esp_log_level_set (tag : String) (level : esp_log_level_t)
  | fflush_stdout
  | esp_restart
  | app_console_settings_get (key : String)
  | app_console_settings_set (key value : String)
  | app_console_settings_save
  deriving DecidableEq, Repr

/-- What one handler invocation does: the `int` it returns, the text it
prints on stdout, and the collaborator calls it makes, oldest first. -/
structure CmdResult where
  status : Int
  out : String
  calls : List Call
  deriving DecidableEq, Repr

/-! ## Log level parsing and the `log` handler -/

/-- `app_parse_log_level(s, &ok)`: the returned level paired with the value
stored through `ok`. -/
def app_parse_log_level (s : String) : esp_log_level_t × Bool :=
  if strcmp s "e" = 0 ∨ strcmp s "error" = 0 then (ESP_LOG_ERROR, true)
  else if strcmp s "w" = 0 ∨ strcmp s "warn" = 0 ∨ strcmp s "warning" = 0 then
    (ESP_LOG_WARN, true)
  else if strcmp s "i" = 0 ∨ strcmp s "info" = 0 then (ESP_LOG_INFO, true)
  else if strcmp s "d" = 0 ∨ strcmp s "debug" = 0 then (ESP_LOG_DEBUG, true)
  else if strcmp s "v" = 0 ∨ strcmp s "verbose" = 0 then (ESP_LOG_VERBOSE, true)
  else (ESP_LOG_NONE, false)

/-- `cmd_log(argc, argv)`. -/
def cmd_log (argv : List String) : CmdResult :=
  let argc : Int := argv.length
  if argc ≠ 4 ∨ strcmp (argv_at argv 1) "level" ≠ 0 then
    ⟨1, "usage: log level <tag|*> <error|warn|info|debug|verbose>\n", []⟩
  else
    let parsed := app_parse_log_level (argv_at argv 3)
    if parsed.2 = false then
      ⟨1, "invalid level '" ++ argv_at argv 3 ++ "'\n", []⟩
    else
      ⟨0, "log_level_set tag=" ++ argv_at argv 2 ++ " level=" ++ argv_at argv 3 ++ "\n",
        [Call.esp_log_level_set (argv_at argv 2) parsed.1]⟩

/-! ## Reset reason, device queries and the read-only handlers -/

/-- ESP-IDF `esp_reset_reason_t` (`esp_system.h`): the eleven enumerators the
table names, and `unlisted code` for every other value of the enum. -/
inductive esp_reset_reason_t
  | ESP_RST_UNKNOWN
  | ESP_RST_POWERON
  | ESP_RST_EXT
  | ESP_RST_SW
  | ESP_RST_PANIC
  | ESP_RST_INT_WDT
  | ESP_RST_TASK_WDT
  | ESP_RST_WDT
  | ESP_RST_DEEPSLEEP
  | ESP_RST_BROWNOUT
  | ESP_RST_SDIO
  | unlisted (code : Nat)
  deriving DecidableEq, Repr

open esp_reset_reason_t

/-- `app_reset_reason_to_str(reason)`. -/
def app_reset_reason_to_str : esp_reset_reason_t → String
  | ESP_RST_UNKNOWN => "unknown"
  | ESP_RST_POWERON => "poweron"
  | ESP_RST_EXT => "ext"
  | ESP_RST_SW => "sw"
  | ESP_RST_PANIC => "panic"
  | ESP_RST_INT_WDT => "int_wdt"
  | ESP_RST_TASK_WDT => "task_wdt"
  | ESP_RST_WDT => "wdt"
  | ESP_RST_DEEPSLEEP => "deepsleep"
  | ESP_RST_BROWNOUT => "brownout"
  | ESP_RST_SDIO => "sdio"
  | unlisted _ => "other"

/-- ESP-IDF `esp_chip_info_t`, the three fields `cmd_status` prints. -/
structure esp_chip_info_t where
  cores : Nat
  features : Nat
  revision : Nat
  deriving DecidableEq, Repr

/-- The values the device queries return during one handler invocation; each
field is named after the query (heap queries are for `MALLOC_CAP_8BIT`,
the stack high-water mark is that of the calling task). -/
structure Device where
  esp_chip_info : esp_chip_info_t
  esp_timer_get_time : Int
  esp_reset_reason : esp_reset_reason_t
  heap_caps_get_free_size : Nat
  heap_caps_get_minimum_free_size : Nat
  heap_caps_get_largest_free_block : Nat
  uxTaskGetNumberOfTasks : Nat
  uxTaskGetStackHighWaterMark : Nat
  deriving DecidableEq, Repr

/-- `printf` conversion `%d` / `%lld` of a signed value. -/
def fmt_d (n : Int) : String :=
  toString n

/-- `printf` conversion `%u` of `(unsigned)n`, 32 bits wide. -/
def fmt_u (n : Nat) : String :=
  toString (n % 2 ^ 32)

/-- `printf` conversion `%x` of a 32-bit unsigned value: lower-case hex. -/
def fmt_x (n : Nat) : String :=
  String.mk (Nat.toDigits 16 (n % 2 ^ 32))

/-- `cmd_status(argc, argv)`; both parameters are discarded. -/
def cmd_status (dev : Device) (_argv : List String) : CmdResult :=
  let chip_info := dev.esp_chip_info
  ⟨0,
    "uptime_ms=" ++ fmt_d (Int.tdiv dev.esp_timer_get_time 1000) ++ "\n"
      ++ ("reset_reason=" ++ app_reset_reason_to_str dev.esp_reset_reason ++ "\n")
      ++ ("cores=" ++ fmt_d chip_info.cores ++ " features=0x" ++ fmt_x chip_info.features
          ++ " revision=" ++ fmt_d chip_info.revision ++ "\n"),
    []⟩

/-- `cmd_heap(argc, argv)`; both parameters are discarded. -/
def cmd_heap (dev : Device) (_argv : List String) : CmdResult :=
  let free_8bit := dev.heap_caps_get_free_size
  let min_8bit := dev.heap_caps_get_minimum_free_size
  let largest_8bit := dev.heap_caps_get_largest_free_block
  ⟨0,
    "heap_8bit_free=" ++ fmt_u free_8bit ++ " min=" ++ fmt_u min_8bit
      ++ " largest=" ++ fmt_u largest_8bit ++ "\n",
    []⟩

/-- `cmd_tasks(argc, argv)`; both parameters are discarded.  The first
argument is the value of the FreeRTOS configuration macro
`INCLUDE_uxTaskGetStackHighWaterMark` the file is compiled with. -/
def cmd_tasks (INCLUDE_uxTaskGetStackHighWaterMark : Int) (dev : Device)
    (_argv : List String) : CmdResult :=
  ⟨0,
    "num_tasks=" ++ fmt_u dev.uxTaskGetNumberOfTasks ++ "\n"
      ++ (if INCLUDE_uxTaskGetStackHighWaterMark = 1 then
            "current_task_stack_hwm_words=" ++ fmt_u dev.uxTaskGetStackHighWaterMark ++ "\n"
          else
            "stack_hwm_unavailable (enable INCLUDE_uxTaskGetStackHighWaterMark)\n")
      ++ "tip=extend this command with per-task snapshots when trace/stats config is enabled\n",
    []⟩

/-! ## The `reboot` handler -/

/-- Outcome of a handler that may hand control to a function that does not
return: `returned` is `none` when control never comes back to the caller. -/
structure NoReturnResult where
  returned : Option Int
  out : String
  calls : List Call
  deriving DecidableEq, Repr

/-- `cmd_reboot(argc, argv)`; both parameters are discarded.  `esp_restart`
does not return, so the trailing `return 0` is never reached. -/
def cmd_reboot (_argv : List String) : NoReturnResult :=
  ⟨none, "restarting...\n", [Call.fflush_stdout, Call.esp_restart]⟩

/-! ## Settings hooks and the `settings` handler -/

/-- What one settings hook does: the `int` it returns, the text it prints and
the backend state it leaves. -/
structure HookResult (σ : Type) where
  status : Int
  out : String
  st : σ

/-- The three overridable settings hooks, over a backend state `σ`. -/
structure SettingsBackend (σ : Type) where
  get : String → σ → HookResult σ
  set : String → String → σ → HookResult σ
  save : σ → HookResult σ

/-- The weak default `app_console_settings_get(key)`. -/
def app_console_settings_get {σ : Type} (key : String) (s : σ) : HookResult σ :=
  ⟨0, "settings.get not implemented for key='" ++ key ++ "'\n", s⟩

/-- The weak default `app_console_settings_set(key, value)`. -/
def app_console_settings_set {σ : Type} (key value : String) (s : σ) : HookResult σ :=
  ⟨0, "settings.set not implemented for key='" ++ key ++ "' value='" ++ value ++ "'\n", s⟩

/-- The weak default `app_console_settings_save()`. -/
def app_console_settings_save {σ : Type} (s : σ) : HookResult σ :=
  ⟨0, "settings.save not implemented\n", s⟩

/-- The hooks linked in when the project overrides none of them. -/
def weak_hooks (σ : Type) : SettingsBackend σ :=
  ⟨app_console_settings_get, app_console_settings_set, app_console_settings_save⟩

/-- `cmd_settings(argc, argv)` linked against the hooks `b`, run with the
backend in state `s`; returns the handler result and the backend state. -/
def cmd_settings {σ : Type} (b : SettingsBackend σ) (argv : List String) (s : σ) :
    CmdResult × σ :=
  let argc : Int := argv.length
  if argc < 2 then
    (⟨1, "usage:\n" ++ "  settings get <key>\n" ++ "  settings set <key> <value>\n"
          ++ "  settings save\n", []⟩, s)
  else if strcmp (argv_at argv 1) "get" = 0 then
    if argc ≠ 3 then
      (⟨1, "usage: settings get <key>\n", []⟩, s)
    else
      let r := b.get (argv_at argv 2) s
      (⟨r.status, r.out, [Call.app_console_settings_get (argv_at argv 2)]⟩, r.st)
  else if strcmp (argv_at argv 1) "set" = 0 then
    if argc ≠ 4 then
      (⟨1, "usage: settings set <key> <value>\n", []⟩, s)
    else
      let r := b.set (argv_at argv 2) (argv_at argv 3) s
      (⟨r.status, r.out,
          [Call.app_console_settings_set (argv_at argv 2) (argv_at argv 3)]⟩, r.st)
  else if strcmp (argv_at argv 1) "save" = 0 then
    if argc ≠ 2 then
      (⟨1, "usage: settings save\n", []⟩, s)
    else
      let r := b.save s
      (⟨r.status, r.out, [Call.app_console_settings_save]⟩, r.st)
  else
    (⟨1, "unknown settings subcommand '" ++ argv_at argv 1 ++ "'\n", []⟩, s)

/-! ## Command registration -/

/-- The address of one of the six static handlers of this file, as stored in
the `func` member of a command descriptor. -/
inductive cmd_func
  | cmd_status
  | cmd_heap
  | cmd_tasks
  | cmd_settings
  | cmd_log
  | cmd_reboot
  deriving DecidableEq, Repr

/-- Calling through a handler address: the function the address stands for,
run with the compile-time configuration, device values, settings hooks and
backend state of the moment.  A handler that returns gives `some status`. -/
def call_handler {σ : Type} (f : cmd_func) (INCLUDE_uxTaskGetStackHighWaterMark : Int)
    (dev : Device) (b : SettingsBackend σ) (argv : List String) (s : σ) :
    NoReturnResult × σ :=
  match f with
  | .cmd_status =>
    (⟨some (cmd_status dev argv).status, (cmd_status dev argv).out,
        (cmd_status dev argv).calls⟩, s)
  | .cmd_heap =>
    (⟨some (cmd_heap dev argv).status, (cmd_heap dev argv).out, (cmd_heap dev argv).calls⟩, s)
  | .cmd_tasks =>
    (⟨some (cmd_tasks INCLUDE_uxTaskGetStackHighWaterMark dev argv).status,
        (cmd_tasks INCLUDE_uxTaskGetStackHighWaterMark dev argv).out,
        (cmd_tasks INCLUDE_uxTaskGetStackHighWaterMark dev argv).calls⟩, s)
  | .cmd_settings =>
    (⟨some (cmd_settings b argv s).1.status, (cmd_settings b argv s).1.out,
        (cmd_settings b argv s).1.calls⟩, (cmd_settings b argv s).2)
  | .cmd_log =>
    (⟨some (cmd_log argv).status, (cmd_log argv).out, (cmd_log argv).calls⟩, s)
  | .cmd_reboot => (cmd_reboot argv, s)

/-- ESP-IDF `esp_console_cmd_t` (`esp_console.h`), the members the file sets;
`none` is a NULL pointer. -/
structure esp_console_cmd_t where
  command : String
  help : String
  hint : Option String
  func : Option cmd_func
  argtable : Option Unit
  deriving DecidableEq, Repr

/-- The two ESP-IDF console entry points the file calls, over the state `ρ` of
the console component: each returns its `esp_err_t` and the state it leaves. -/
structure ConsoleApi (ρ : Type) where
  esp_console_register_help_command : ρ → esp_err_t × ρ
  esp_console_cmd_register : esp_console_cmd_t → ρ → esp_err_t × ρ

/-- `app_register_cmd(name, help, func)`. -/
def app_register_cmd {ρ : Type} (api : ConsoleApi ρ) (name help : String)
    (func : Option cmd_func) (st : ρ) : esp_err_t × ρ :=
  let cmd : esp_console_cmd_t :=
    ⟨name, help, none, func, none⟩
  api.esp_console_cmd_register cmd st

/-- ESP-IDF macro `ESP_ERROR_CHECK(x)` (`esp_err.h`): `true` when execution
continues after it.  Compiled with `NDEBUG` it discards the value of `x`;
otherwise a value other than `ESP_OK` aborts the program. -/
def ESP_ERROR_CHECK (NDEBUG : Bool) (x : esp_err_t) : Bool :=
  NDEBUG || decide (x = ESP_OK)

/-- What one run of `app_console_register_commands` does: the value it returns
(`none` when `ESP_ERROR_CHECK` aborts and control never comes back), the
descriptors it passed to `esp_console_cmd_register` with the result of each
call, oldest first, and the console state it leaves. -/
structure RegisterOutcome (ρ : Type) where
  returned : Option esp_err_t
  attempts : List (esp_console_cmd_t × esp_err_t)
  st : ρ

/-- The arguments of the six `app_register_cmd` calls of
`app_console_register_commands`, in program order. -/
def builtin_cmds : List (String × String × cmd_func) :=
  [("status", "Show uptime, reset reason, and chip summary", .cmd_status),
   ("heap", "Show heap free/min/largest block summary", .cmd_heap),
   ("tasks", "Show RTOS task/debug summary", .cmd_tasks),
   ("settings", "Get/set/save application settings", .cmd_settings),
   ("log", "Runtime log control: log level <tag|*> <level>", .cmd_log),
   ("reboot", "Restart the device", .cmd_reboot)]

/-- The descriptor `app_register_cmd` builds for one entry of `builtin_cmds`. -/
def builtin_descriptor (c : String × String × cmd_func) : esp_console_cmd_t :=
  ⟨c.1, c.2.1, none, some c.2.2, none⟩

/-- The statements `ESP_ERROR_CHECK(app_register_cmd(...));` for the entries
of `cmds`, one after the other, followed by `return ESP_OK`. -/
def register_checked {ρ : Type} (NDEBUG : Bool) (api : ConsoleApi ρ) :
    List (String × String × cmd_func) → ρ → RegisterOutcome ρ
  | [], st => ⟨some ESP_OK, [], st⟩
  | c :: rest, st =>
    let r := app_register_cmd api c.1 c.2.1 (some c.2.2) st
    if ESP_ERROR_CHECK NDEBUG r.1 then
      let o := register_checked NDEBUG api rest r.2
      ⟨o.returned, (builtin_descriptor c, r.1) :: o.attempts, o.st⟩
    else
      ⟨none, [(builtin_descriptor c, r.1)], r.2⟩

/-- `app_console_register_commands()`, compiled with or without `NDEBUG`,
against the console entry points `api` in state `st`. -/
def app_console_register_commands {ρ : Type} (NDEBUG : Bool) (api : ConsoleApi ρ) (st : ρ) :
    RegisterOutcome ρ :=
  let r := api.esp_console_register_help_command st
  let err := r.1
  if err ≠ ESP_OK ∧ err ≠ ESP_ERR_INVALID_STATE then
    ⟨some err, [], r.2⟩
  else
    register_checked NDEBUG api builtin_cmds r.2

/-- The console `api` with a recorder in front of it: next to the state of
`api`, the state holds every descriptor `esp_console_cmd_register` has been
handed, with the value it returned, oldest first.  Results and the state of
`api` are those of `api` alone. -/
def recording {ρ : Type} (api : ConsoleApi ρ) :
    ConsoleApi (ρ × List (esp_console_cmd_t × esp_err_t)) :=
  ⟨fun s =>
    ((api.esp_console_register_help_command s.1).1,
      ((api.esp_console_register_help_command s.1).2, s.2)),
   fun cmd s =>
    ((api.esp_console_cmd_register cmd s.1).1,
      ((api.esp_console_cmd_register cmd s.1).2,
        s.2 ++ [(cmd, (api.esp_console_cmd_register cmd s.1).1)]))⟩

/-- A console that can refuse: it keeps the names it holds, refuses a second
help registration with `ESP_ERR_INVALID_STATE`, a descriptor with an empty
name, an empty help text or a NULL handler with `ESP_ERR_INVALID_ARG`, and a
name it already holds with `ESP_ERR_INVALID_STATE`. -/
def strict_console : ConsoleApi (List String) :=
  ⟨fun st =>
    if "help" ∈ st then (ESP_ERR_INVALID_STATE, st) else (ESP_OK, st ++ ["help"]),
   fun cmd st =>
    if cmd.command = "" ∨ cmd.help = "" ∨ cmd.func = none then (ESP_ERR_INVALID_ARG, st)
    else if cmd.command ∈ st then (ESP_ERR_INVALID_STATE, st)
    else (ESP_OK, st ++ [cmd.command])⟩

/-! ## Registry and dispatcher of the specification

The file hands every descriptor to ESP-IDF's console component
(`esp_console_cmd_register`), which also owns lookup and dispatch; that code is
not part of the repository.  The definitions of this section follow the words
of the specification instead. -/

/-- Modelled from the spec: the command descriptor, an immutable triple of
name, help text and handler (a function from the argument vector to an integer
status); `none` is an absent handler.  The registry that stores it is missing
from the sources. -/
structure CommandDescriptor where
  name : String
  help : String
  handler : Option (List String → Int)

/-- Modelled from the spec: the two registry-time errors; the registry code is
missing from the sources. -/
inductive RegistryError
  | DuplicateCommand
  | InvalidDescriptor
  deriving DecidableEq, Repr

/-- Modelled from the spec: the command registry, an ordered collection of
descriptors; its code is missing from the sources. -/
abbrev Registry := List CommandDescriptor

/-- Modelled from the spec: `lookup(name)` returns the descriptor or NotFound
(`none`), without side effects; the registry code is missing from the
sources. -/
def Registry.lookup (reg : Registry) (name : String) : Option CommandDescriptor :=
  reg.find? (fun d => decide (d.name = name))

/-- Modelled from the spec: `register(descriptor)` fails with
`DuplicateCommand` if the name is already present and with `InvalidDescriptor`
if the name is empty or the handler is absent, the two tests in the order the
specification gives them; otherwise the descriptor becomes visible to lookup.
The registry code is missing from the sources. -/
def Registry.register (reg : Registry) (d : CommandDescriptor) :
    Except RegistryError Registry :=
  if (Registry.lookup reg d.name).isSome then Except.error RegistryError.DuplicateCommand
  else if d.name = "" ∨ d.handler.isNone then Except.error RegistryError.InvalidDescriptor
  else Except.ok (reg ++ [d])

/-- What one dispatch does: the status it returns and the handler invocations
it makes (descriptor name and the token vector passed), oldest first. -/
structure DispatchResult where
  status : Int
  invoked : List (String × List String)
  deriving DecidableEq, Repr

/-- Modelled from the spec: `dispatch(tokens)` resolves `tokens[0]` through
`lookup`; on NotFound it returns a non-zero status without invoking anything
(the specification fixes no value; `ESP_ERR_NOT_FOUND` is used), otherwise it
invokes the handler once on the whole token vector and returns its status
unchanged.  The dispatcher code is missing from the sources. -/
def Registry.dispatch (reg : Registry) (tokens : List String) : DispatchResult :=
  match Registry.lookup reg (argv_at tokens 0) with
  | none => ⟨ESP_ERR_NOT_FOUND, []⟩
  | some d =>
    match d.handler with
    | none => ⟨ESP_ERR_NOT_FOUND, []⟩
    | some h => ⟨h tokens, [(d.name, tokens)]⟩

/-- A registry holding a "status" command that always succeeds and the "log"
command of this file. -/
def example_registry : Registry :=
  [⟨"status", "Show uptime, reset reason, and chip summary", some (fun _ => 0)⟩,
   ⟨"log", "Runtime log control: log level <tag|*> <level>",
     some (fun argv => (cmd_log argv).status)⟩]

/-! ## Vocabulary of the specification -/

/-- The level names the `log` handler accepts, as the specification lists them. -/
def level_names : List String :=
  ["e", "error", "w", "warn", "warning", "i", "info", "d", "debug", "v", "verbose"]

/-- The level each name stands for, as the specification lists them. -/
def spec_level_table : List (String × esp_log_level_t) :=
  [("e", ESP_LOG_ERROR), ("error", ESP_LOG_ERROR),
   ("w", ESP_LOG_WARN), ("warn", ESP_LOG_WARN), ("warning", ESP_LOG_WARN),
   ("i", ESP_LOG_INFO), ("info", ESP_LOG_INFO),
   ("d", ESP_LOG_DEBUG), ("debug", ESP_LOG_DEBUG),
   ("v", ESP_LOG_VERBOSE), ("verbose", ESP_LOG_VERBOSE)]

/-- The level named by `name` in the specification, if any. -/
def spec_level_of_name (name : String) : Option esp_log_level_t :=
  (spec_level_table.find? (fun e => decide (e.1 = name))).map Prod.snd

/-- ASCII lower-casing of a string (`tolower` on every byte). -/
def spec_lowercase (s : String) : String :=
  String.mk (s.data.map Char.toLower)

/-- The text `out` has a line that begins with `start`: it begins with
`start`, or `start` follows a newline somewhere in it. -/
def has_line_starting (start out : String) : Prop :=
  start.data <+: out.data ∨ ('\n' :: start.data) <:+: out.data

instance (start out : String) : Decidable (has_line_starting start out) :=
  inferInstanceAs (Decidable (_ ∨ _))

/-- The text `out` contains `piece`. -/
def has_text (piece out : String) : Prop :=
  piece.data <:+: out.data

instance (piece out : String) : Decidable (has_text piece out) :=
  inferInstanceAs (Decidable (_ <:+: _))

end AppConsole

/-! # Bounds-checked display flush (`display_flush_template.c`) -/

namespace DisplayFlush

open EspIdf

/-- `display_pixel_format_t`: an object of the enum type holds an integer; the
enumerators are numbered from 0 in the order of the declaration. -/
abbrev display_pixel_format_t := Int

/-- `DISPLAY_FMT_RGB565_LE`. -/
def DISPLAY_FMT_RGB565_LE : display_pixel_format_t := 0
/-- `DISPLAY_FMT_RGB565_BE`. -/
def DISPLAY_FMT_RGB565_BE : display_pixel_format_t := 1
/-- `DISPLAY_FMT_RGB888`. -/
def DISPLAY_FMT_RGB888 : display_pixel_format_t := 2

/-- `display_caps_t`. -/
structure display_caps_t where
  width : Int
  height : Int
  pixel_format : display_pixel_format_t
  bgr_order : Bool
  deriving DecidableEq, Repr

/-- `display_flush_region_t`; `pixels` is `none` for a NULL pointer and the
address otherwise, `len_bytes` is a `size_t`. -/
structure display_flush_region_t where
  x : Int
  y : Int
  w : Int
  h : Int
  pixels : Option Nat
  len_bytes : Nat
  deriving DecidableEq, Repr

/-- The values of the 32-bit `int` of the target. -/
def int_range (v : Int) : Prop :=
  -(2 ^ 31) ≤ v ∧ v < 2 ^ 31

instance (v : Int) : Decidable (int_range v) :=
  inferInstanceAs (Decidable (_ ∧ _))

/-- The `int` fields of a capability record and a region are 32-bit values and
`len_bytes` is a 32-bit `size_t`. -/
def in_range (caps : display_caps_t) (r : display_flush_region_t) : Prop :=
  int_range caps.width ∧ int_range caps.height ∧ int_range r.x ∧ int_range r.y ∧
  int_range r.w ∧ int_range r.h ∧ r.len_bytes < 2 ^ 32

instance (caps : display_caps_t) (r : display_flush_region_t) : Decidable (in_range caps r) :=
  inferInstanceAs (Decidable (_ ∧ _))

/-- The sum `a + b` of two `int`s as the 32-bit target computes it: the
mathematical sum wrapped into the two's-complement range (C leaves the
overflowing case undefined). -/
def int_add (a b : Int) : Int :=
  (a + b + 2 ^ 31) % 2 ^ 32 - 2 ^ 31

/-- The conversion `(size_t)v` of an `int` on the 32-bit target. -/
def to_size_t (v : Int) : Nat :=
  (v % 2 ^ 32).toNat

/-- The product of two `size_t` values on the 32-bit target. -/
def size_mul (a b : Nat) : Nat :=
  (a * b) % 2 ^ 32

/-- The value of `expected`: `(size_t)r->w * (size_t)r->h * bpp`. -/
def expected_len (r : display_flush_region_t) (bpp : Nat) : Nat :=
  size_mul (size_mul (to_size_t r.w) (to_size_t r.h)) bpp

/-- `display_flush_checked(caps, r)`; `none` is a NULL argument. -/
def display_flush_checked (caps : Option display_caps_t) (r : Option display_flush_region_t) :
    esp_err_t :=
  match caps, r with
  | none, _ => ESP_ERR_INVALID_ARG
  | some _, none => ESP_ERR_INVALID_ARG
  | some caps, some r =>
    if r.pixels = none then ESP_ERR_INVALID_ARG
    else if r.x < 0 ∨ r.y < 0 ∨ r.w ≤ 0 ∨ r.h ≤ 0 then ESP_ERR_INVALID_ARG
    else if int_add r.x r.w > caps.width ∨ int_add r.y r.h > caps.height then
      ESP_ERR_INVALID_ARG
    else if caps.pixel_format = DISPLAY_FMT_RGB565_LE
        ∨ caps.pixel_format = DISPLAY_FMT_RGB565_BE then
      if r.len_bytes ≠ expected_len r 2 then ESP_ERR_INVALID_SIZE else ESP_OK
    else if caps.pixel_format = DISPLAY_FMT_RGB888 then
      if r.len_bytes ≠ expected_len r 3 then ESP_ERR_INVALID_SIZE else ESP_OK
    else ESP_ERR_NOT_SUPPORTED

/-- Bytes per pixel of a supported format, as the claims give them. -/
def spec_bpp (fmt : display_pixel_format_t) : Nat :=
  if fmt = DISPLAY_FMT_RGB888 then 3 else 2

end DisplayFlush

/-! # Periodic GPIO component (`esp32_component_template.c`) -/

namespace ComponentTemplate

open EspIdf

/-- `esp32_component_template_config_t`; `period_ms` is a `uint32_t`. -/
structure esp32_component_template_config_t where
  gpio_num : Int
  period_ms : Nat
  active_high : Bool
  deriving DecidableEq, Repr

/-- The file-scope variables `s_task` (`none` is NULL), `s_cfg` and
`s_initialized`. -/
structure State where
  s_task : Option Nat
  s_cfg : esp32_component_template_config_t
  s_initialized : Bool
  deriving DecidableEq, Repr

/-- The variables at program start: zero-initialised statics. -/
def State.initial : State :=
  ⟨none, ⟨0, 0, false⟩, false⟩

/-- The `gpio_config_t` the file fills in: the pin mask, whether the mode is
`GPIO_MODE_OUTPUT`, and whether pull-up, pull-down and interrupts are enabled. -/
structure gpio_config_t where
  pin_bit_mask : Nat
  mode_output : Bool
  pull_up_en : Bool
  pull_down_en : Bool
  intr_enabled : Bool
  deriving DecidableEq, Repr

/-- The initialiser of the local `io` in `esp32_component_template_init`:
pin mask `1ULL << cfg->gpio_num`, output mode, pulls and interrupt disabled. -/
def io_for (cfg : esp32_component_template_config_t) : gpio_config_t :=
  ⟨(2 ^ cfg.gpio_num.toNat) % 2 ^ 64, true, false, false, false⟩

/-- `esp32_component_template_init(cfg)`; `none` is a NULL `cfg`.  The macro
`GPIO_IS_VALID_OUTPUT_GPIO` and the driver call `gpio_config` belong to
ESP-IDF and are parameters. -/
def esp32_component_template_init ( GPIO_IS_VALID_OUTPUT_GPIO : Int → Bool)
    (gpio_config : gpio_config_t → esp_err_t)
    (cfg : Option esp32_component_template_config_t) (s : State) : esp_err_t × State :=
  match cfg with
  | none => (ESP_ERR_INVALID_ARG, s)
  | some cfg =>
    if ¬ (cfg.period_ms > 0) then (ESP_ERR_INVALID_ARG, s)
    else if ¬ ( GPIO_IS_VALID_OUTPUT_GPIO cfg.gpio_num = true) then (ESP_ERR_INVALID_ARG, s)
    else
      let io : gpio_config_t := io_for cfg
      let err := gpio_config io
      if err ≠ ESP_OK then (err, s)
      else (ESP_OK, ⟨s.s_task, cfg, true⟩)

/-- `esp32_component_template_start()`.  `xTaskCreate` is the outcome of the
FreeRTOS call: `some handle` when it returns `pdPASS` and stores the handle
through its last argument, `none` when it fails and stores nothing. -/
def esp32_component_template_start (xTaskCreate : Option Nat) (s : State) :
    esp_err_t × State :=
  if ¬ (s.s_initialized = true) then (ESP_ERR_INVALID_STATE, s)
  else if ¬ (s.s_task = none) then (ESP_ERR_INVALID_STATE, s)
  else
    match xTaskCreate with
    | none => (ESP_ERR_NO_MEM, s)
    | some handle => (ESP_OK, ⟨some handle, s.s_cfg, s.s_initialized⟩)

/-- `esp32_component_template_stop()`. -/
def esp32_component_template_stop (s : State) : esp_err_t × State :=
  if ¬ (s.s_task ≠ none) then (ESP_ERR_INVALID_STATE, s)
  else (ESP_OK, ⟨none, s.s_cfg, s.s_initialized⟩)

/-- One call of the public interface, with what the collaborators answer
during it. -/
inductive Op
  | init (gpio_config : gpio_config_t → esp_err_t)
      (cfg : Option esp32_component_template_config_t)
  | start (xTaskCreate : Option Nat)
  | stop

/-- The effect of one call: its return value and the variables after it. -/
def step ( GPIO_IS_VALID_OUTPUT_GPIO : Int → Bool) (op : Op) (s : State) : esp_err_t × State :=
  match op with
  | Op.init gpio_config cfg =>
    esp32_component_template_init GPIO_IS_VALID_OUTPUT_GPIO gpio_config cfg s
  | Op.start xTaskCreate => esp32_component_template_start xTaskCreate s
  | Op.stop => esp32_component_template_stop s

/-- The variables after a sequence of calls made from state `s`. -/
def run ( GPIO_IS_VALID_OUTPUT_GPIO : Int → Bool) (ops : List Op) (s : State) : State :=
  ops.foldl (fun st op => (step GPIO_IS_VALID_OUTPUT_GPIO op st).2) s

end ComponentTemplate

namespace AppConsole

open EspIdf esp_log_level_t esp_reset_reason_t

/-! ## Basic facts -/

theorem strcmp_chars_eq_zero (a b : List Char) : strcmp_chars a b = 0 ↔ a = b := by
  induction a generalizing b with
  | nil => cases b <;> simp [strcmp_chars]
  | cons x xs ih =>
    cases b with
    | nil => simp [strcmp_chars]
    | cons y ys =>
      by_cases hxy : x = y
      · simp [strcmp_chars, hxy, ih]
      · by_cases hlt : x < y <;> simp [strcmp_chars, hxy, hlt]

theorem strcmp_eq_zero (a b : String) : strcmp a b = 0 ↔ a = b := by
  unfold strcmp
  rw [strcmp_chars_eq_zero]
  exact (String.ext_iff).symm

theorem has_text_append_left (piece a b : String) (h : has_text piece a) :
    has_text piece (a ++ b) := by
  unfold has_text at *
  rw [String.data_append]
  exact h.trans (List.prefix_append a.data b.data).isInfix

theorem has_text_append_right (piece a b : String) (h : has_text piece b) :
    has_text piece (a ++ b) := by
  unfold has_text at *
  rw [String.data_append]
  exact h.trans (List.suffix_append a.data b.data).isInfix

theorem has_line_starting_append_left (start a b : String) (h : has_line_starting start a) :
    has_line_starting start (a ++ b) := by
  unfold has_line_starting at *
  rw [String.data_append]
  rcases h with h | h
  · exact Or.inl (h.trans (List.prefix_append a.data b.data))
  · exact Or.inr (h.trans (List.prefix_append a.data b.data).isInfix)

theorem has_line_starting_after_newline (start a b c : String) (h : start.data <+: b.data) :
    has_line_starting start (a ++ "\n" ++ b ++ c) := by
  unfold has_line_starting
  right
  obtain ⟨t, ht⟩ := h
  refine ⟨a.data, t ++ c.data, ?_⟩
  simp only [String.data_append, ← ht]
  simp

/-! ## Log level parsing -/

theorem spec_level_of_name_none (s : String) (h : s ∉ level_names) :
    spec_level_of_name s = none := by
  simp only [level_names, List.mem_cons, List.mem_singleton, List.not_mem_nil, or_false,
    not_or] at h
  obtain ⟨h1, h2, h3, h4, h5, h6, h7, h8, h9, h10, h11⟩ := h
  simp [spec_level_of_name, spec_level_table, List.find?, eq_comm, h1, h2, h3, h4, h5, h6, h7,
    h8, h9, h10, h11]

theorem spec_level_of_name_some (s : String) (h : s ∈ level_names) :
    ∃ lvl, spec_level_of_name s = some lvl := by
  simp only [level_names, List.mem_cons, List.mem_singleton, List.not_mem_nil, or_false] at h
  rcases h with h | h | h | h | h | h | h | h | h | h | h <;> subst h <;>
    exact Option.isSome_iff_exists.mp (by decide)

theorem app_parse_log_level_eq (s : String) :
    app_parse_log_level s =
      match spec_level_of_name s with
      | some lvl => (lvl, true)
      | none => (ESP_LOG_NONE, false) := by
  by_cases hs : s ∈ level_names
  · simp only [level_names, List.mem_cons, List.mem_singleton, List.not_mem_nil, or_false] at hs
    rcases hs with h | h | h | h | h | h | h | h | h | h | h <;> subst h <;> decide
  · rw [spec_level_of_name_none s hs]
    simp only [level_names, List.mem_cons, List.mem_singleton, List.not_mem_nil, or_false,
      not_or] at hs
    obtain ⟨h1, h2, h3, h4, h5, h6, h7, h8, h9, h10, h11⟩ := hs
    simp [app_parse_log_level, strcmp_eq_zero, h1, h2, h3, h4, h5, h6, h7, h8, h9, h10, h11]

/-! ## The `log` handler -/

theorem cmd_log_eq (argv : List String) :
    cmd_log argv =
      if argv.length ≠ 4 ∨ argv_at argv 1 ≠ "level" then
        ⟨1, "usage: log level <tag|*> <error|warn|info|debug|verbose>\n", []⟩
      else
        match spec_level_of_name (argv_at argv 3) with
        | none => ⟨1, "invalid level '" ++ argv_at argv 3 ++ "'\n", []⟩
        | some lvl =>
          ⟨0, "log_level_set tag=" ++ argv_at argv 2 ++ " level=" ++ argv_at argv 3 ++ "\n",
            [Call.esp_log_level_set (argv_at argv 2) lvl]⟩ := by
  have hc : ((argv.length : Int) = 4) ↔ argv.length = 4 := by
    constructor <;> intro h <;> exact_mod_cast h
  unfold cmd_log
  simp only [ne_eq, strcmp_eq_zero, app_parse_log_level_eq, hc]
  by_cases h1 : ¬ argv.length = 4 ∨ ¬ argv_at argv 1 = "level"
  · simp only [h1, if_true]
  · simp only [h1, if_false]
    cases hl : spec_level_of_name (argv_at argv 3) <;> simp

/-- C1: `cmd_log` returns 0 exactly when `argv` has four tokens, `argv[1]` is
"level" and `argv[3]` is one of the eleven level names, and returns 1 for every
other argument vector; `log level * error` gives 0, `log level sometag bogus`
and `log level onlyonearg` give 1. -/
theorem cmd_log_status_zero_iff (argv : List String) :
    ((cmd_log argv).status = 0 ↔
        argv.length = 4 ∧ argv_at argv 1 = "level" ∧ argv_at argv 3 ∈ level_names) ∧
    (¬ (argv.length = 4 ∧ argv_at argv 1 = "level" ∧ argv_at argv 3 ∈ level_names) →
        (cmd_log argv).status = 1) ∧
    (cmd_log ["log", "level", "*", "error"]).status = 0 ∧
    (cmd_log ["log", "level", "sometag", "bogus"]).status = 1 ∧
    (cmd_log ["log", "level", "onlyonearg"]).status = 1 := by
  have key : (argv.length = 4 ∧ argv_at argv 1 = "level" ∧ argv_at argv 3 ∈ level_names →
        (cmd_log argv).status = 0) ∧
      (¬ (argv.length = 4 ∧ argv_at argv 1 = "level" ∧ argv_at argv 3 ∈ level_names) →
        (cmd_log argv).status = 1) := by
    rw [cmd_log_eq]
    constructor
    · rintro ⟨h4, h1, h3⟩
      obtain ⟨lvl, hl⟩ := spec_level_of_name_some _ h3
      simp [h4, h1, hl]
    · intro hn
      by_cases hu : argv.length ≠ 4 ∨ argv_at argv 1 ≠ "level"
      · simp [hu]
      · have hu2 : argv.length = 4 ∧ argv_at argv 1 = "level" := by
          constructor
          · by_contra h
            exact hu (Or.inl h)
          · by_contra h
            exact hu (Or.inr h)
        have h3 : argv_at argv 3 ∉ level_names := fun h => hn ⟨hu2.1, hu2.2, h⟩
        simp [hu2.1, hu2.2, spec_level_of_name_none _ h3]
  refine ⟨⟨?_, key.1⟩, key.2, by decide, by decide, by decide⟩
  intro h0
  by_contra hn
  have h1 := key.2 hn
  rw [h0] at h1
  exact absurd h1 (by decide)

/-- C2 (as stated, refuted): "ERROR" lower-cases to the level name "error",
yet `app_parse_log_level` rejects it (`ok` false, `ESP_LOG_NONE`) while it
accepts "error" as `ESP_LOG_ERROR`; likewise "Warn" is rejected. -/
theorem app_parse_log_level_upper_case_rejected :
    spec_lowercase "ERROR" = "error" ∧ "error" ∈ level_names ∧
    app_parse_log_level "ERROR" = (ESP_LOG_NONE, false) ∧
    app_parse_log_level "error" = (ESP_LOG_ERROR, true) ∧
    spec_lowercase "Warn" = "warn" ∧ "warn" ∈ level_names ∧
    app_parse_log_level "Warn" = (ESP_LOG_NONE, false) := by
  decide

/-- C2 (amended): level names are matched byte for byte.  A string that is
itself one of the eleven lower-case names sets `ok` and yields the level it
names; every other string, also one that only lower-cases to a name, clears
`ok` and yields `ESP_LOG_NONE`. -/
theorem app_parse_log_level_case_sensitive (s : String) :
    (s ∈ level_names →
        (app_parse_log_level s).2 = true ∧
        spec_level_of_name s = some (app_parse_log_level s).1) ∧
    (s ∉ level_names → app_parse_log_level s = (ESP_LOG_NONE, false)) ∧
    (spec_lowercase s ∈ level_names → s ≠ spec_lowercase s →
        app_parse_log_level s = (ESP_LOG_NONE, false)) := by
  have hnot : s ∉ level_names → app_parse_log_level s = (ESP_LOG_NONE, false) := by
    intro h
    rw [app_parse_log_level_eq, spec_level_of_name_none s h]
  refine ⟨?_, hnot, ?_⟩
  · intro h
    obtain ⟨lvl, hl⟩ := spec_level_of_name_some s h
    rw [app_parse_log_level_eq, hl]
    exact ⟨rfl, rfl⟩
  · intro _ hne
    apply hnot
    intro h
    apply hne
    simp only [level_names, List.mem_cons, List.mem_singleton, List.not_mem_nil, or_false] at h
    rcases h with h | h | h | h | h | h | h | h | h | h | h <;> subst h <;> decide

/-- C7: `cmd_log` calls the log-level-set primitive exactly once when it
returns 0, with tag `argv[2]` unchanged and the level `argv[3]` names, and
makes no call when it returns 1; it returns nothing but 0 or 1, and the
wildcard tag `*` is passed through as it is. -/
theorem cmd_log_calls (argv : List String) :
    ((cmd_log argv).status = 0 →
        ∃ lvl, spec_level_of_name (argv_at argv 3) = some lvl ∧
          (cmd_log argv).calls = [Call.esp_log_level_set (argv_at argv 2) lvl]) ∧
    ((cmd_log argv).status = 1 → (cmd_log argv).calls = []) ∧
    ((cmd_log argv).status = 0 ∨ (cmd_log argv).status = 1) ∧
    (cmd_log ["log", "level", "*", "error"]).calls =
      [Call.esp_log_level_set "*" ESP_LOG_ERROR] ∧
    (cmd_log ["log", "level", "wifi", "v"]).calls =
      [Call.esp_log_level_set "wifi" ESP_LOG_VERBOSE] := by
  refine ⟨?_, ?_, ?_, by decide, by decide⟩ <;> rw [cmd_log_eq]
  · split_ifs with hu
    · intro h
      exact absurd h (by decide)
    · cases hl : spec_level_of_name (argv_at argv 3) with
      | none =>
        intro h
        simp at h
      | some lvl =>
        intro _
        exact ⟨lvl, rfl, rfl⟩
  · split_ifs with hu
    · intro _
      rfl
    · cases hl : spec_level_of_name (argv_at argv 3) with
      | none =>
        intro _
        rfl
      | some lvl =>
        intro h
        simp at h
  · split_ifs with hu
    · exact Or.inr rfl
    · cases hl : spec_level_of_name (argv_at argv 3) with
      | none => exact Or.inr rfl
      | some lvl => exact Or.inl rfl

/-! ## The `settings` handler -/

theorem cmd_settings_eq {σ : Type} (b : SettingsBackend σ) (argv : List String) (s : σ) :
    cmd_settings b argv s =
      if argv.length < 2 then
        (⟨1, "usage:\n" ++ "  settings get <key>\n" ++ "  settings set <key> <value>\n"
              ++ "  settings save\n", []⟩, s)
      else if argv_at argv 1 = "get" then
        if argv.length ≠ 3 then (⟨1, "usage: settings get <key>\n", []⟩, s)
        else
          (⟨(b.get (argv_at argv 2) s).status, (b.get (argv_at argv 2) s).out,
              [Call.app_console_settings_get (argv_at argv 2)]⟩,
            (b.get (argv_at argv 2) s).st)
      else if argv_at argv 1 = "set" then
        if argv.length ≠ 4 then (⟨1, "usage: settings set <key> <value>\n", []⟩, s)
        else
          (⟨(b.set (argv_at argv 2) (argv_at argv 3) s).status,
              (b.set (argv_at argv 2) (argv_at argv 3) s).out,
              [Call.app_console_settings_set (argv_at argv 2) (argv_at argv 3)]⟩,
            (b.set (argv_at argv 2) (argv_at argv 3) s).st)
      else if argv_at argv 1 = "save" then
        if argv.length ≠ 2 then (⟨1, "usage: settings save\n", []⟩, s)
        else (⟨(b.save s).status, (b.save s).out, [Call.app_console_settings_save]⟩,
            (b.save s).st)
      else
        (⟨1, "unknown settings subcommand '" ++ argv_at argv 1 ++ "'\n", []⟩, s) := by
  have h2 : ((argv.length : Int) < 2) ↔ argv.length < 2 := by
    constructor <;> intro h <;> exact_mod_cast h
  have h3 : ((argv.length : Int) = 3) ↔ argv.length = 3 := by
    constructor <;> intro h <;> exact_mod_cast h
  have h4 : ((argv.length : Int) = 4) ↔ argv.length = 4 := by
    constructor <;> intro h <;> exact_mod_cast h
  have h2e : ((argv.length : Int) = 2) ↔ argv.length = 2 := by
    constructor <;> intro h <;> exact_mod_cast h
  unfold cmd_settings
  simp only [ne_eq, strcmp_eq_zero, h2, h3, h4, h2e]

/-- C3: `cmd_settings` calls the get hook (with `argv[2]`) exactly when `argv`
has three tokens and `argv[1]` is "get", the set hook (with `argv[2]`,
`argv[3]`) exactly when it has four and `argv[1]` is "set", the save hook
exactly when it has two and `argv[1]` is "save"; in every other case it calls
no hook, leaves the backend as it was and returns 1. -/
theorem cmd_settings_dispatch {σ : Type} (b : SettingsBackend σ) (argv : List String) (s : σ) :
    ((cmd_settings b argv s).1.calls = [Call.app_console_settings_get (argv_at argv 2)] ↔
        argv.length = 3 ∧ argv_at argv 1 = "get") ∧
    ((cmd_settings b argv s).1.calls =
          [Call.app_console_settings_set (argv_at argv 2) (argv_at argv 3)] ↔
        argv.length = 4 ∧ argv_at argv 1 = "set") ∧
    ((cmd_settings b argv s).1.calls = [Call.app_console_settings_save] ↔
        argv.length = 2 ∧ argv_at argv 1 = "save") ∧
    (¬ (argv.length = 3 ∧ argv_at argv 1 = "get") →
      ¬ (argv.length = 4 ∧ argv_at argv 1 = "set") →
      ¬ (argv.length = 2 ∧ argv_at argv 1 = "save") →
        (cmd_settings b argv s).1.calls = [] ∧ (cmd_settings b argv s).1.status = 1 ∧
        (cmd_settings b argv s).2 = s) ∧
    (cmd_settings b ["settings", "get"] s).1.status = 1 ∧
    (cmd_settings b ["settings"] s).1.status = 1 ∧
    (cmd_settings b ["settings", "erase", "k1"] s).1.status = 1 := by
  have hgs : ¬ ("get" = "set") := by decide
  have hgv : ¬ ("get" = "save") := by decide
  have hsv : ¬ ("set" = "save") := by decide
  refine ⟨?_, ?_, ?_, ?_, rfl, rfl, rfl⟩ <;> rw [cmd_settings_eq] <;>
    split_ifs <;> simp_all <;> omega

/-- C4: on a well-formed settings command, whatever the backend and its state,
`cmd_settings` makes exactly one hook call, the matching one, and hands back
that call's `int` result, printed text and backend state untouched. -/
theorem cmd_settings_relays_hook {σ : Type} (b : SettingsBackend σ) (a0 k v : String) (s : σ) :
    cmd_settings b [a0, "get", k] s =
        (⟨(b.get k s).status, (b.get k s).out, [Call.app_console_settings_get k]⟩,
          (b.get k s).st) ∧
    cmd_settings b [a0, "set", k, v] s =
        (⟨(b.set k v s).status, (b.set k v s).out, [Call.app_console_settings_set k v]⟩,
          (b.set k v s).st) ∧
    cmd_settings b [a0, "save"] s =
        (⟨(b.save s).status, (b.save s).out, [Call.app_console_settings_save]⟩,
          (b.save s).st) :=
  ⟨rfl, rfl, rfl⟩

/-- C5: with the default hooks, `settings get key`, `settings set key value`
and `settings save` each return 0 and print text containing "not implemented";
`settings set k1 v1` followed by `settings save` both return 0 with that
notice. -/
theorem cmd_settings_weak_hooks {σ : Type} (a0 key value : String) (s : σ) :
    ((cmd_settings (weak_hooks σ) [a0, "get", key] s).1.status = 0 ∧
      has_text "not implemented" (cmd_settings (weak_hooks σ) [a0, "get", key] s).1.out) ∧
    ((cmd_settings (weak_hooks σ) [a0, "set", key, value] s).1.status = 0 ∧
      has_text "not implemented"
        (cmd_settings (weak_hooks σ) [a0, "set", key, value] s).1.out) ∧
    ((cmd_settings (weak_hooks σ) [a0, "save"] s).1.status = 0 ∧
      has_text "not implemented" (cmd_settings (weak_hooks σ) [a0, "save"] s).1.out) ∧
    ((cmd_settings (weak_hooks σ) ["settings", "set", "k1", "v1"] s).1.status = 0 ∧
      (cmd_settings (weak_hooks σ) ["settings", "save"]
        (cmd_settings (weak_hooks σ) ["settings", "set", "k1", "v1"] s).2).1.status = 0 ∧
      (cmd_settings (weak_hooks σ) ["settings", "set", "k1", "v1"] s).1.out =
        "settings.set not implemented for key='k1' value='v1'\n" ∧
      (cmd_settings (weak_hooks σ) ["settings", "save"]
        (cmd_settings (weak_hooks σ) ["settings", "set", "k1", "v1"] s).2).1.out =
        "settings.save not implemented\n") := by
  refine ⟨⟨rfl, ?_⟩, ⟨rfl, ?_⟩, ⟨rfl, ?_⟩, rfl, rfl, rfl, rfl⟩
  · show has_text "not implemented" ("settings.get not implemented for key='" ++ key ++ "'\n")
    exact has_text_append_left _ _ _ (has_text_append_left _ _ _ (by decide))
  · show has_text "not implemented"
      ("settings.set not implemented for key='" ++ key ++ "' value='" ++ value ++ "'\n")
    exact has_text_append_left _ _ _ (has_text_append_left _ _ _
      (has_text_append_left _ _ _ (has_text_append_left _ _ _ (by decide))))
  · show has_text "not implemented" "settings.save not implemented\n"
    decide

/-- C6 (as stated, refuted): `log level sometag bogus` returns 1 and prints
only "invalid level 'bogus'", and an unknown settings subcommand returns 1 and
prints only "unknown settings subcommand ..."; neither output contains the
word "usage", let alone a line beginning with it. -/
theorem nonzero_status_without_usage :
    (cmd_log ["log", "level", "sometag", "bogus"]).status = 1 ∧
    (cmd_log ["log", "level", "sometag", "bogus"]).out = "invalid level 'bogus'\n" ∧
    ¬ has_line_starting "usage" (cmd_log ["log", "level", "sometag", "bogus"]).out ∧
    ¬ has_text "usage" (cmd_log ["log", "level", "sometag", "bogus"]).out ∧
    (cmd_settings (weak_hooks Unit) ["settings", "erase", "k1"] ()).1.status = 1 ∧
    (cmd_settings (weak_hooks Unit) ["settings", "erase", "k1"] ()).1.out =
      "unknown settings subcommand 'erase'\n" ∧
    ¬ has_line_starting "usage"
      (cmd_settings (weak_hooks Unit) ["settings", "erase", "k1"] ()).1.out ∧
    ¬ has_text "usage" (cmd_settings (weak_hooks Unit) ["settings", "erase", "k1"] ()).1.out := by
  decide

/-- C6 (amended): every non-zero result of `cmd_log` and of `cmd_settings`
with the default hooks is status 1, makes no collaborator call and prints
exactly one diagnostic.  `cmd_log` prints its usage line when `argv` does not
have four tokens or `argv[1]` is not "level", and otherwise, for a level name
it does not know, exactly the line "invalid level '<argv[3]>'".
`cmd_settings` prints its usage block when `argv` has fewer than two tokens,
the usage line of the subcommand when `argv[1]` is get, set or save with the
wrong number of tokens, and for any other `argv[1]`, whatever the number of
tokens, exactly the line "unknown settings subcommand '<argv[1]>'".  In every
remaining case the status is 0.  Each usage text begins with "usage". -/
theorem nonzero_status_diagnostic {σ : Type} (argv : List String) (s : σ) :
    (argv.length ≠ 4 ∨ argv_at argv 1 ≠ "level" →
      cmd_log argv =
        ⟨1, "usage: log level <tag|*> <error|warn|info|debug|verbose>\n", []⟩) ∧
    (argv.length = 4 ∧ argv_at argv 1 = "level" ∧ argv_at argv 3 ∉ level_names →
      cmd_log argv = ⟨1, "invalid level '" ++ argv_at argv 3 ++ "'\n", []⟩) ∧
    (argv.length = 4 ∧ argv_at argv 1 = "level" ∧ argv_at argv 3 ∈ level_names →
      (cmd_log argv).status = 0) ∧
    ((cmd_log argv).status ≠ 0 → (cmd_log argv).status = 1) ∧
    (argv.length < 2 →
      (cmd_settings (weak_hooks σ) argv s).1 =
        ⟨1, "usage:\n" ++ "  settings get <key>\n" ++ "  settings set <key> <value>\n"
              ++ "  settings save\n", []⟩) ∧
    (2 ≤ argv.length ∧ argv_at argv 1 = "get" ∧ argv.length ≠ 3 →
      (cmd_settings (weak_hooks σ) argv s).1 = ⟨1, "usage: settings get <key>\n", []⟩) ∧
    (2 ≤ argv.length ∧ argv_at argv 1 = "set" ∧ argv.length ≠ 4 →
      (cmd_settings (weak_hooks σ) argv s).1 =
        ⟨1, "usage: settings set <key> <value>\n", []⟩) ∧
    (2 ≤ argv.length ∧ argv_at argv 1 = "save" ∧ argv.length ≠ 2 →
      (cmd_settings (weak_hooks σ) argv s).1 = ⟨1, "usage: settings save\n", []⟩) ∧
    (2 ≤ argv.length ∧ argv_at argv 1 ≠ "get" ∧ argv_at argv 1 ≠ "set" ∧
        argv_at argv 1 ≠ "save" →
      (cmd_settings (weak_hooks σ) argv s).1 =
        ⟨1, "unknown settings subcommand '" ++ argv_at argv 1 ++ "'\n", []⟩) ∧
    ((argv.length = 3 ∧ argv_at argv 1 = "get") ∨ (argv.length = 4 ∧ argv_at argv 1 = "set") ∨
        (argv.length = 2 ∧ argv_at argv 1 = "save") →
      (cmd_settings (weak_hooks σ) argv s).1.status = 0) ∧
    ((cmd_settings (weak_hooks σ) argv s).1.status ≠ 0 →
      (cmd_settings (weak_hooks σ) argv s).1.status = 1) ∧
    (cmd_settings (weak_hooks σ) ["settings", "erase", "a", "b", "c"] s).1 =
      ⟨1, "unknown settings subcommand 'erase'\n", []⟩ ∧
    has_line_starting "usage" "usage: log level <tag|*> <error|warn|info|debug|verbose>\n" ∧
    has_line_starting "usage"
      ("usage:\n" ++ "  settings get <key>\n" ++ "  settings set <key> <value>\n"
        ++ "  settings save\n") ∧
    has_line_starting "usage" "usage: settings get <key>\n" ∧
    has_line_starting "usage" "usage: settings set <key> <value>\n" ∧
    has_line_starting "usage" "usage: settings save\n" := by
  have hgs : ¬ ("get" = "set") := by decide
  have hgv : ¬ ("get" = "save") := by decide
  have hsg : ¬ ("set" = "get") := by decide
  have hsv : ¬ ("set" = "save") := by decide
  have hvg : ¬ ("save" = "get") := by decide
  have hvs : ¬ ("save" = "set") := by decide
  refine ⟨?_, ?_, ?_, ?_, ?_, ?_, ?_, ?_, ?_, ?_, ?_, rfl, by decide, by decide, by decide,
    by decide, by decide⟩
  · intro hu
    rw [cmd_log_eq, if_pos hu]
  · rintro ⟨h4, h1, h3⟩
    have hu : ¬ (argv.length ≠ 4 ∨ argv_at argv 1 ≠ "level") := by
      rintro (h | h)
      · exact h h4
      · exact h h1
    rw [cmd_log_eq, if_neg hu, spec_level_of_name_none _ h3]
  · rintro ⟨h4, h1, h3⟩
    have hu : ¬ (argv.length ≠ 4 ∨ argv_at argv 1 ≠ "level") := by
      rintro (h | h)
      · exact h h4
      · exact h h1
    obtain ⟨lvl, hl⟩ := spec_level_of_name_some _ h3
    rw [cmd_log_eq, if_neg hu, hl]
  · rw [cmd_log_eq]
    split_ifs with hu
    · intro _
      rfl
    · cases hl : spec_level_of_name (argv_at argv 3) with
      | none =>
        intro _
        rfl
      | some lvl =>
        intro h
        exact absurd rfl h
  · intro h
    rw [cmd_settings_eq, if_pos h]
  · rintro ⟨h2, h1, h3⟩
    rw [cmd_settings_eq, if_neg (by omega), if_pos h1, if_pos h3]
  · rintro ⟨h2, h1, h3⟩
    rw [cmd_settings_eq, if_neg (by omega), if_neg (by rw [h1]; exact hsg), if_pos h1,
      if_pos h3]
  · rintro ⟨h2, h1, h3⟩
    rw [cmd_settings_eq, if_neg (by omega), if_neg (by rw [h1]; exact hvg),
      if_neg (by rw [h1]; exact hvs), if_pos h1, if_pos h3]
  · rintro ⟨h2, hg, hs, hv⟩
    rw [cmd_settings_eq, if_neg (by omega), if_neg hg, if_neg hs, if_neg hv]
  · rintro (⟨h3, h1⟩ | ⟨h4, h1⟩ | ⟨h2, h1⟩)
    · rw [cmd_settings_eq, if_neg (by omega), if_pos h1, if_neg (not_not.mpr h3)]
      rfl
    · rw [cmd_settings_eq, if_neg (by omega), if_neg (by rw [h1]; exact hsg), if_pos h1,
        if_neg (not_not.mpr h4)]
      rfl
    · rw [cmd_settings_eq, if_neg (by omega), if_neg (by rw [h1]; exact hvg),
        if_neg (by rw [h1]; exact hvs), if_pos h1, if_neg (not_not.mpr h2)]
      rfl
  · rw [cmd_settings_eq]
    split_ifs
    all_goals first
      | (intro _; rfl)
      | (intro h; exact absurd rfl h)

/-! ## Reset reason and the read-only handlers -/

/-- C8: `app_reset_reason_to_str` is a finite table with a fallback: the
eleven named reasons map to "unknown", "poweron", "ext", "sw", "panic",
"int_wdt", "task_wdt", "wdt", "deepsleep", "brownout", "sdio", every other
value maps to "other" (and only those do), the eleven strings are pairwise
distinct and none of them is "other". -/
theorem app_reset_reason_to_str_table :
    [ESP_RST_UNKNOWN, ESP_RST_POWERON, ESP_RST_EXT, ESP_RST_SW, ESP_RST_PANIC,
        ESP_RST_INT_WDT, ESP_RST_TASK_WDT, ESP_RST_WDT, ESP_RST_DEEPSLEEP, ESP_RST_BROWNOUT,
        ESP_RST_SDIO].map app_reset_reason_to_str =
      ["unknown", "poweron", "ext", "sw", "panic", "int_wdt", "task_wdt", "wdt", "deepsleep",
        "brownout", "sdio"] ∧
    (∀ code : Nat, app_reset_reason_to_str (unlisted code) = "other") ∧
    (∀ r : esp_reset_reason_t,
      app_reset_reason_to_str r = "other" ↔ ∃ code : Nat, r = unlisted code) ∧
    (["unknown", "poweron", "ext", "sw", "panic", "int_wdt", "task_wdt", "wdt", "deepsleep",
        "brownout", "sdio"] : List String).Nodup ∧
    "other" ∉ (["unknown", "poweron", "ext", "sw", "panic", "int_wdt", "task_wdt", "wdt",
        "deepsleep", "brownout", "sdio"] : List String) := by
  refine ⟨rfl, fun _ => rfl, ?_, by decide, by decide⟩
  intro r
  constructor
  · intro h
    cases r with
    | unlisted code => exact ⟨code, rfl⟩
    | _ => exact absurd h (by decide)
  · rintro ⟨code, rfl⟩
    rfl

/-- C9: `cmd_status`, `cmd_heap` and `cmd_tasks` return 0 and call no
collaborator with an effect, for every argument vector and all values the
device queries return; `cmd_tasks` does so with the stack high-water-mark
instrumentation compiled in (where it prints the mark) and without it (where it
prints a line beginning with "stack_hwm_unavailable"). -/
theorem read_only_handlers_return_zero (cfg : Int) (dev : Device) (argv : List String) :
    ((cmd_status dev argv).status = 0 ∧ (cmd_status dev argv).calls = []) ∧
    ((cmd_heap dev argv).status = 0 ∧ (cmd_heap dev argv).calls = []) ∧
    ((cmd_tasks cfg dev argv).status = 0 ∧ (cmd_tasks cfg dev argv).calls = []) ∧
    (cmd_tasks 1 dev argv).status = 0 ∧
    has_line_starting "current_task_stack_hwm_words=" (cmd_tasks 1 dev argv).out ∧
    (cmd_tasks 0 dev argv).status = 0 ∧
    has_line_starting "stack_hwm_unavailable" (cmd_tasks 0 dev argv).out ∧
    (cfg ≠ 1 → has_line_starting "stack_hwm_unavailable" (cmd_tasks cfg dev argv).out) := by
  refine ⟨⟨rfl, rfl⟩, ⟨rfl, rfl⟩, ⟨rfl, rfl⟩, rfl, ?_, rfl, ?_, ?_⟩
  · show has_line_starting "current_task_stack_hwm_words="
      ("num_tasks=" ++ fmt_u dev.uxTaskGetNumberOfTasks ++ "\n"
        ++ ("current_task_stack_hwm_words=" ++ fmt_u dev.uxTaskGetStackHighWaterMark ++ "\n")
        ++ "tip=extend this command with per-task snapshots when trace/stats config is enabled\n")
    apply has_line_starting_after_newline
    simp only [String.data_append]
    exact (List.prefix_append _ _).trans (List.prefix_append _ _)
  · show has_line_starting "stack_hwm_unavailable"
      ("num_tasks=" ++ fmt_u dev.uxTaskGetNumberOfTasks ++ "\n"
        ++ "stack_hwm_unavailable (enable INCLUDE_uxTaskGetStackHighWaterMark)\n"
        ++ "tip=extend this command with per-task snapshots when trace/stats config is enabled\n")
    apply has_line_starting_after_newline
    decide
  · intro hcfg
    show has_line_starting "stack_hwm_unavailable"
      ("num_tasks=" ++ fmt_u dev.uxTaskGetNumberOfTasks ++ "\n"
        ++ (if cfg = 1 then
              "current_task_stack_hwm_words=" ++ fmt_u dev.uxTaskGetStackHighWaterMark ++ "\n"
            else "stack_hwm_unavailable (enable INCLUDE_uxTaskGetStackHighWaterMark)\n")
        ++ "tip=extend this command with per-task snapshots when trace/stats config is enabled\n")
    rw [if_neg hcfg]
    apply has_line_starting_after_newline
    decide

/-! ## The `reboot` handler -/

/-- C10 (as stated, refuted): given the two-token vector `reboot now`,
`cmd_reboot` still calls `esp_restart`. -/
theorem cmd_reboot_extra_token_restarts :
    Call.esp_restart ∈ (cmd_reboot ["reboot", "now"]).calls ∧
    (cmd_reboot ["reboot", "now"]).calls = (cmd_reboot ["reboot"]).calls := by
  decide

/-- C10 (amended): `cmd_reboot` does not look at its argument vector: for
every `argv`, of any length, it prints "restarting...", flushes stdout, calls
`esp_restart` exactly once as its last action and never returns. -/
theorem cmd_reboot_always_restarts (argv : List String) :
    (cmd_reboot argv).calls = [Call.fflush_stdout, Call.esp_restart] ∧
    (cmd_reboot argv).calls.count Call.esp_restart = 1 ∧
    (cmd_reboot argv).out = "restarting...\n" ∧
    (cmd_reboot argv).returned = none ∧
    cmd_reboot argv = cmd_reboot ["reboot"] := by
  refine ⟨rfl, ?_, rfl, rfl, rfl⟩
  show [Call.fflush_stdout, Call.esp_restart].count Call.esp_restart = 1
  decide

/-! ## Command registration -/

theorem register_checked_of_attempts_ok {ρ : Type} (NDEBUG : Bool) (api : ConsoleApi ρ)
    (cmds : List (String × String × cmd_func)) (st : ρ)
    (hreg : ∀ a ∈ (register_checked NDEBUG api cmds st).attempts, a.2 = ESP_OK) :
    (register_checked NDEBUG api cmds st).returned = some ESP_OK ∧
    (register_checked NDEBUG api cmds st).attempts.map Prod.fst =
      cmds.map builtin_descriptor := by
  induction cmds generalizing st with
  | nil => exact ⟨rfl, rfl⟩
  | cons c rest ih =>
    by_cases hc : ESP_ERROR_CHECK NDEBUG (app_register_cmd api c.1 c.2.1 (some c.2.2) st).1
        = true
    · simp only [register_checked, hc, if_true, List.map_cons] at hreg ⊢
      obtain ⟨h1, h2⟩ := ih (app_register_cmd api c.1 c.2.1 (some c.2.2) st).2
        (fun a ha => hreg a (List.mem_cons_of_mem _ ha))
      exact ⟨h1, by rw [h2]⟩
    · have hr : (app_register_cmd api c.1 c.2.1 (some c.2.2) st).1 = ESP_OK := by
        simp only [register_checked, hc] at hreg
        exact hreg _ (List.mem_singleton.mpr rfl)
      rw [hr] at hc
      exact absurd (by cases NDEBUG <;> rfl) hc

/-- What the recorder sees is what `register_checked` reports: run against
`recording api`, the sequence returns what it returns against `api`, leaves
`api` in the same state, and the recorder holds, after what it held before,
exactly the descriptors of `attempts` with their results. -/
theorem register_checked_recording {ρ : Type} (NDEBUG : Bool) (api : ConsoleApi ρ)
    (cmds : List (String × String × cmd_func)) (st : ρ)
    (seen : List (esp_console_cmd_t × esp_err_t)) :
    (register_checked NDEBUG (recording api) cmds (st, seen)).returned =
      (register_checked NDEBUG api cmds st).returned ∧
    (register_checked NDEBUG (recording api) cmds (st, seen)).st.1 =
      (register_checked NDEBUG api cmds st).st ∧
    (register_checked NDEBUG (recording api) cmds (st, seen)).st.2 =
      seen ++ (register_checked NDEBUG api cmds st).attempts := by
  induction cmds generalizing st seen with
  | nil => exact ⟨rfl, rfl, (List.append_nil seen).symm⟩
  | cons c rest ih =>
    have hcall : app_register_cmd (recording api) c.1 c.2.1 (some c.2.2) (st, seen) =
        ((app_register_cmd api c.1 c.2.1 (some c.2.2) st).1,
          ((app_register_cmd api c.1 c.2.1 (some c.2.2) st).2,
            seen ++ [(builtin_descriptor c,
              (app_register_cmd api c.1 c.2.1 (some c.2.2) st).1)])) := rfl
    by_cases hc : ESP_ERROR_CHECK NDEBUG (app_register_cmd api c.1 c.2.1 (some c.2.2) st).1
        = true
    · simp only [register_checked, hcall, hc, if_true]
      obtain ⟨h1, h2, h3⟩ := ih (app_register_cmd api c.1 c.2.1 (some c.2.2) st).2
        (seen ++ [(builtin_descriptor c, (app_register_cmd api c.1 c.2.1 (some c.2.2) st).1)])
      refine ⟨h1, h2, ?_⟩
      rw [h3, List.append_assoc]
      rfl
    · simp only [register_checked, hcall, hc]
      exact ⟨rfl, rfl, rfl⟩

/-- C12: when the help registration and every `esp_console_cmd_register` call
the function makes return `ESP_OK`, `app_console_register_commands` returns
`ESP_OK`, and the console has been handed exactly six descriptors, in the order
status, heap, tasks, settings, log, reboot, each with the name, the non-empty
help text and the handler of that command, NULL hint and argtable; the six
names are pairwise distinct and none is "help".  The console itself is
arbitrary and may refuse other descriptors; what it was handed is read off a
recorder placed in front of it. -/
theorem register_commands_all_ok {ρ : Type} (NDEBUG : Bool) (api : ConsoleApi ρ) (st : ρ)
    (hhelp : (api.esp_console_register_help_command st).1 = ESP_OK)
    (hreg : ∀ a ∈ (app_console_register_commands NDEBUG (recording api) (st, [])).st.2,
      a.2 = ESP_OK) :
    (app_console_register_commands NDEBUG (recording api) (st, [])).returned = some ESP_OK ∧
    (app_console_register_commands NDEBUG api st).returned = some ESP_OK ∧
    (app_console_register_commands NDEBUG (recording api) (st, [])).st.1 =
      (app_console_register_commands NDEBUG api st).st ∧
    (app_console_register_commands NDEBUG (recording api) (st, [])).st.2.map Prod.fst =
      [⟨"status", "Show uptime, reset reason, and chip summary", none,
          some cmd_func.cmd_status, none⟩,
       ⟨"heap", "Show heap free/min/largest block summary", none,
          some cmd_func.cmd_heap, none⟩,
       ⟨"tasks", "Show RTOS task/debug summary", none, some cmd_func.cmd_tasks, none⟩,
       ⟨"settings", "Get/set/save application settings", none,
          some cmd_func.cmd_settings, none⟩,
       ⟨"log", "Runtime log control: log level <tag|*> <level>", none,
          some cmd_func.cmd_log, none⟩,
       ⟨"reboot", "Restart the device", none, some cmd_func.cmd_reboot, none⟩] ∧
    (app_console_register_commands NDEBUG (recording api) (st, [])).st.2.length = 6 ∧
    (∀ a ∈ (app_console_register_commands NDEBUG (recording api) (st, [])).st.2,
      a.1.command ≠ "" ∧ a.1.help ≠ "" ∧ a.1.func ≠ none) ∧
    ((app_console_register_commands NDEBUG (recording api) (st, [])).st.2.map
        (fun a => a.1.command)).Nodup ∧
    "help" ∉ (app_console_register_commands NDEBUG (recording api) (st, [])).st.2.map
        (fun a => a.1.command) ∧
    (∀ (σ : Type) (cfg : Int) (dev : Device) (b : SettingsBackend σ) (argv : List String)
        (s : σ),
      (call_handler cmd_func.cmd_status cfg dev b argv s).1.returned =
          some (cmd_status dev argv).status ∧
      (call_handler cmd_func.cmd_heap cfg dev b argv s).1.returned =
          some (cmd_heap dev argv).status ∧
      (call_handler cmd_func.cmd_tasks cfg dev b argv s).1.returned =
          some (cmd_tasks cfg dev argv).status ∧
      (call_handler cmd_func.cmd_settings cfg dev b argv s).1.returned =
          some (cmd_settings b argv s).1.status ∧
      (call_handler cmd_func.cmd_log cfg dev b argv s).1.returned =
          some (cmd_log argv).status ∧
      (call_handler cmd_func.cmd_reboot cfg dev b argv s).1 = cmd_reboot argv) := by
  have hn : ¬ ((api.esp_console_register_help_command st).1 ≠ ESP_OK ∧
      (api.esp_console_register_help_command st).1 ≠ ESP_ERR_INVALID_STATE) :=
    fun h => h.1 hhelp
  have hrec : app_console_register_commands NDEBUG (recording api) (st, []) =
      register_checked NDEBUG (recording api) builtin_cmds
        ((api.esp_console_register_help_command st).2, []) := by
    have hn2 : ¬ (((recording api).esp_console_register_help_command (st, [])).1 ≠ ESP_OK ∧
        ((recording api).esp_console_register_help_command (st, [])).1
          ≠ ESP_ERR_INVALID_STATE) := hn
    simp only [app_console_register_commands, hn2, if_false]
    rfl
  have hplain : app_console_register_commands NDEBUG api st =
      register_checked NDEBUG api builtin_cmds
        (api.esp_console_register_help_command st).2 := by
    simp only [app_console_register_commands, hn, if_false]
  obtain ⟨r1, r2, r3⟩ := register_checked_recording NDEBUG api builtin_cmds
    (api.esp_console_register_help_command st).2 []
  rw [hrec] at hreg ⊢
  rw [hplain]
  rw [r3, List.nil_append] at hreg
  obtain ⟨g1, g2⟩ := register_checked_of_attempts_ok NDEBUG api builtin_cmds
    (api.esp_console_register_help_command st).2 hreg
  rw [r1, r2, r3, List.nil_append, g1]
  have hlen : (register_checked NDEBUG api builtin_cmds
      (api.esp_console_register_help_command st).2).attempts.length = 6 := by
    have := congrArg List.length g2
    simpa using this
  have hnames : (register_checked NDEBUG api builtin_cmds
      (api.esp_console_register_help_command st).2).attempts.map (fun a => a.1.command) =
      ["status", "heap", "tasks", "settings", "log", "reboot"] := by
    have := congrArg (List.map (fun d : esp_console_cmd_t => d.command)) g2
    simpa using this
  refine ⟨rfl, rfl, rfl, g2, hlen, ?_, ?_, ?_, ?_⟩
  · intro a ha
    have hmem : a.1 ∈ builtin_cmds.map builtin_descriptor := by
      rw [← g2]
      exact List.mem_map_of_mem Prod.fst ha
    have hall : ∀ d ∈ builtin_cmds.map builtin_descriptor,
        d.command ≠ "" ∧ d.help ≠ "" ∧ d.func ≠ none := by decide
    exact hall _ hmem
  · rw [hnames]
    decide
  · rw [hnames]
    decide
  · intro σ cfg dev b argv s
    exact ⟨rfl, rfl, rfl, rfl, rfl, rfl⟩

/-- C12 witness: a console that refuses duplicates, empty names, empty help
texts and NULL handlers accepts the whole sequence and ends up holding help and
the six names. -/
theorem register_commands_all_ok_witness :
    (app_console_register_commands false (recording strict_console) ([], [])).returned =
        some ESP_OK ∧
    (app_console_register_commands false (recording strict_console) ([], [])).st.1 =
        ["help", "status", "heap", "tasks", "settings", "log", "reboot"] ∧
    (app_console_register_commands false strict_console ["status"]).returned = none :=
  ⟨(register_commands_all_ok false strict_console [] (by decide) (by decide)).1,
    by decide, by decide⟩

theorem registry_lookup_append_new (reg : Registry) (d : CommandDescriptor)
    (h : Registry.lookup reg d.name = none) :
    Registry.lookup (reg ++ [d]) d.name = some d := by
  unfold Registry.lookup at *
  rw [List.find?_append, h]
  simp

theorem registry_register_ok (reg reg1 : Registry) (d : CommandDescriptor)
    (h : Registry.register reg d = Except.ok reg1) :
    Registry.lookup reg d.name = none ∧ d.name ≠ "" ∧ d.handler.isSome = true ∧
    reg1 = reg ++ [d] := by
  unfold Registry.register at h
  split_ifs at h with h1 h2
  have hl : Registry.lookup reg d.name = none := by
    cases hx : Registry.lookup reg d.name with
    | none => rfl
    | some x => simp [hx] at h1
  have hh : d.handler.isSome = true := by
    cases hx : d.handler with
    | none => exact absurd (Or.inr (by simp [hx])) h2
    | some x => rfl
  exact ⟨hl, fun hn => h2 (Or.inl hn), hh, (Except.ok.inj h).symm⟩

/-- C14: in the registry of the specification, once a descriptor is
registered, registering another with the same name fails with
`DuplicateCommand`, and the first stays the one that lookup resolves and
dispatch invokes; a descriptor with an empty name or an absent handler is
never accepted, and is refused with `InvalidDescriptor` when its name is not
already taken.  `app_register_cmd` hands the registry result back as it is. -/
theorem registry_duplicate_and_invalid (reg reg1 : Registry) (d1 d2 : CommandDescriptor)
    (h1 : Registry.register reg d1 = Except.ok reg1) (h2 : d2.name = d1.name) :
    Registry.register reg1 d2 = Except.error RegistryError.DuplicateCommand ∧
    Registry.lookup reg1 d1.name = some d1 ∧
    (∃ h, d1.handler = some h ∧
      ∀ args, Registry.dispatch reg1 (d1.name :: args) =
        ⟨h (d1.name :: args), [(d1.name, d1.name :: args)]⟩) ∧
    (∀ (r : Registry) (d : CommandDescriptor), d.name = "" ∨ d.handler = none →
      (∀ r1, Registry.register r d ≠ Except.ok r1) ∧
      (Registry.lookup r d.name = none →
        Registry.register r d = Except.error RegistryError.InvalidDescriptor)) ∧
    (∀ (ρ : Type) (api : ConsoleApi ρ) (name help : String) (func : Option cmd_func) (st : ρ),
      app_register_cmd api name help func st =
        api.esp_console_cmd_register ⟨name, help, none, func, none⟩ st) := by
  obtain ⟨hl, _, hh, hreg⟩ := registry_register_ok reg reg1 d1 h1
  have hfound : Registry.lookup reg1 d1.name = some d1 := by
    rw [hreg]
    exact registry_lookup_append_new reg d1 hl
  refine ⟨?_, hfound, ?_, ?_, fun _ _ _ _ _ _ => rfl⟩
  · unfold Registry.register
    rw [h2, hfound]
    rfl
  · obtain ⟨h, hh2⟩ := Option.isSome_iff_exists.mp hh
    refine ⟨h, hh2, ?_⟩
    intro args
    unfold Registry.dispatch
    have h0 : argv_at (d1.name :: args) 0 = d1.name := rfl
    rw [h0, hfound]
    simp only [hh2]
  · intro r d hinv
    constructor
    · intro r1 hok
      obtain ⟨_, g2, g3, _⟩ := registry_register_ok r r1 d hok
      rcases hinv with hinv | hinv
      · exact g2 hinv
      · rw [hinv] at g3
        exact absurd g3 (by simp)
    · intro hnone
      unfold Registry.register
      rw [hnone]
      have hc : d.name = "" ∨ d.handler.isNone = true := by
        rcases hinv with hinv | hinv
        · exact Or.inl hinv
        · exact Or.inr (by rw [hinv]; rfl)
      simp only [Option.isSome_none, Bool.false_eq_true, if_false, hc, if_true]

/-- C14 witness: a second "status" descriptor after a first one. -/
theorem registry_duplicate_and_invalid_witness :
    Registry.register [⟨"status", "first", some (fun _ => 0)⟩]
        ⟨"status", "second", some (fun _ => 7)⟩ =
      Except.error RegistryError.DuplicateCommand ∧
    (Registry.dispatch [⟨"status", "first", some (fun _ => 0)⟩] ["status"]).status = 0 :=
  ⟨(registry_duplicate_and_invalid [] [⟨"status", "first", some (fun _ => 0)⟩]
      ⟨"status", "first", some (fun _ => 0)⟩ ⟨"status", "second", some (fun _ => 7)⟩
      rfl rfl).1,
    rfl⟩

/-- C15: in the dispatcher of the specification, a token vector whose first
token resolves to no descriptor gives a non-zero status and no handler
invocation; one whose first token resolves to a descriptor gives exactly one
invocation, of that descriptor's handler on the whole token vector, and the
handler's status unchanged.  On a registry with "status" and "log",
`foobar` is refused and `log ...` returns what `cmd_log` returns. -/
theorem registry_dispatch_outcome (reg : Registry) (tokens : List String) :
    (Registry.lookup reg (argv_at tokens 0) = none →
      (Registry.dispatch reg tokens).status ≠ 0 ∧
      (Registry.dispatch reg tokens).invoked = []) ∧
    (∀ d h, Registry.lookup reg (argv_at tokens 0) = some d → d.handler = some h →
      d.name = argv_at tokens 0 ∧
      Registry.dispatch reg tokens = ⟨h tokens, [(d.name, tokens)]⟩) ∧
    Registry.dispatch example_registry ["foobar"] = ⟨ESP_ERR_NOT_FOUND, []⟩ ∧
    Registry.dispatch example_registry ["log", "level", "*", "error"] =
      ⟨0, [("log", ["log", "level", "*", "error"])]⟩ ∧
    Registry.dispatch example_registry ["log", "level", "sometag", "bogus"] =
      ⟨1, [("log", ["log", "level", "sometag", "bogus"])]⟩ := by
  refine ⟨?_, ?_, by decide, by decide, by decide⟩
  · intro h
    unfold Registry.dispatch
    rw [h]
    refine ⟨?_, rfl⟩
    show ESP_ERR_NOT_FOUND ≠ 0
    decide
  · intro d h hl hh
    constructor
    · unfold Registry.lookup at hl
      have := List.find?_some hl
      simpa using this
    · unfold Registry.dispatch
      rw [hl]
      simp only [hh]

end AppConsole

namespace DisplayFlush

open EspIdf

/-! ## Bounds-checked display flush -/

theorem int_add_eq (a b : Int) (h0 : -(2 ^ 31) ≤ a + b) (h1 : a + b < 2 ^ 31) :
    int_add a b = a + b := by
  unfold int_add
  omega

theorem to_size_t_eq (v : Int) (h0 : 0 ≤ v) (h1 : v < 2 ^ 32) : (to_size_t v : Int) = v := by
  unfold to_size_t
  omega

/-- The outcome of `display_flush_checked` on non-NULL arguments, one test
after the other. -/
theorem display_flush_checked_some (caps : display_caps_t) (r : display_flush_region_t) :
    display_flush_checked (some caps) (some r) =
      if r.pixels = none ∨ r.x < 0 ∨ r.y < 0 ∨ r.w ≤ 0 ∨ r.h ≤ 0
          ∨ int_add r.x r.w > caps.width ∨ int_add r.y r.h > caps.height then
        ESP_ERR_INVALID_ARG
      else if ¬ (caps.pixel_format = DISPLAY_FMT_RGB565_LE
          ∨ caps.pixel_format = DISPLAY_FMT_RGB565_BE
          ∨ caps.pixel_format = DISPLAY_FMT_RGB888) then
        ESP_ERR_NOT_SUPPORTED
      else if r.len_bytes ≠ expected_len r (spec_bpp caps.pixel_format) then
        ESP_ERR_INVALID_SIZE
      else ESP_OK := by
  have h2 : DISPLAY_FMT_RGB565_LE ≠ DISPLAY_FMT_RGB888 := by decide
  have h3 : DISPLAY_FMT_RGB565_BE ≠ DISPLAY_FMT_RGB888 := by decide
  simp only [display_flush_checked, spec_bpp]
  by_cases hp : r.pixels = none
  · simp [hp]
  by_cases hneg : r.x < 0 ∨ r.y < 0 ∨ r.w ≤ 0 ∨ r.h ≤ 0
  · rcases hneg with h | h | h | h <;> simp [hp, h]
  by_cases hout : int_add r.x r.w > caps.width ∨ int_add r.y r.h > caps.height
  · rcases hout with h | h <;> simp [hp, hneg, h]
  have hall : ¬ (r.pixels = none ∨ r.x < 0 ∨ r.y < 0 ∨ r.w ≤ 0 ∨ r.h ≤ 0
      ∨ int_add r.x r.w > caps.width ∨ int_add r.y r.h > caps.height) := by
    rintro (h | h | h | h | h | h | h)
    · exact hp h
    · exact hneg (Or.inl h)
    · exact hneg (Or.inr (Or.inl h))
    · exact hneg (Or.inr (Or.inr (Or.inl h)))
    · exact hneg (Or.inr (Or.inr (Or.inr h)))
    · exact hout (Or.inl h)
    · exact hout (Or.inr h)
  rw [if_neg hp, if_neg hneg, if_neg hout, if_neg hall]
  by_cases h565 : caps.pixel_format = DISPLAY_FMT_RGB565_LE
      ∨ caps.pixel_format = DISPLAY_FMT_RGB565_BE
  · have hn : ¬ caps.pixel_format = DISPLAY_FMT_RGB888 := by
      rcases h565 with h | h <;> rw [h]
      · exact h2
      · exact h3
    have hany : caps.pixel_format = DISPLAY_FMT_RGB565_LE
        ∨ caps.pixel_format = DISPLAY_FMT_RGB565_BE
        ∨ caps.pixel_format = DISPLAY_FMT_RGB888 := by
      rcases h565 with h | h
      · exact Or.inl h
      · exact Or.inr (Or.inl h)
    rw [if_pos h565, if_neg (not_not.mpr hany)]
    simp only [if_neg hn]
  · rw [if_neg h565]
    by_cases h888 : caps.pixel_format = DISPLAY_FMT_RGB888
    · have hany : caps.pixel_format = DISPLAY_FMT_RGB565_LE
          ∨ caps.pixel_format = DISPLAY_FMT_RGB565_BE
          ∨ caps.pixel_format = DISPLAY_FMT_RGB888 := Or.inr (Or.inr h888)
      rw [if_pos h888, if_neg (not_not.mpr hany)]
      simp only [if_pos h888]
    · have hany : ¬ (caps.pixel_format = DISPLAY_FMT_RGB565_LE
          ∨ caps.pixel_format = DISPLAY_FMT_RGB565_BE
          ∨ caps.pixel_format = DISPLAY_FMT_RGB888) := by
        rintro (h | h | h)
        · exact h565 (Or.inl h)
        · exact h565 (Or.inr h)
        · exact h888 h
      rw [if_neg h888, if_pos hany]

theorem expected_len_eq (r : display_flush_region_t) (bpp : Nat) (hw : 0 ≤ r.w)
    (hh : 0 ≤ r.h) (hw2 : r.w < 2 ^ 31) (hh2 : r.h < 2 ^ 31) (hb : 0 < bpp)
    (hp : r.w.toNat * r.h.toNat * bpp < 2 ^ 32) :
    expected_len r bpp = r.w.toNat * r.h.toNat * bpp := by
  have e1 : to_size_t r.w = r.w.toNat := by
    unfold to_size_t
    omega
  have e2 : to_size_t r.h = r.h.toNat := by
    unfold to_size_t
    omega
  have hle : r.w.toNat * r.h.toNat ≤ r.w.toNat * r.h.toNat * bpp :=
    Nat.le_mul_of_pos_right _ hb
  unfold expected_len size_mul
  rw [e1, e2, Nat.mod_eq_of_lt (lt_of_le_of_lt hle hp), Nat.mod_eq_of_lt hp]

/-- Where the sums `x + w` and `y + h` stay inside the `int` range, a region
`display_flush_checked` accepts lies inside the panel. -/
theorem display_flush_bounds_sound_of_no_overflow (caps : display_caps_t)
    (r : display_flush_region_t) (hx : r.x + r.w < 2 ^ 31) (hy : r.y + r.h < 2 ^ 31)
    (hok : display_flush_checked (some caps) (some r) = ESP_OK) :
    0 ≤ r.x ∧ 0 ≤ r.y ∧ 0 < r.w ∧ 0 < r.h ∧
    r.x + r.w ≤ caps.width ∧ r.y + r.h ≤ caps.height := by
  rw [display_flush_checked_some] at hok
  split_ifs at hok with h1 h2 h3
  all_goals first | exact absurd hok (by decide) | skip
  · simp only [not_or, not_lt, not_le, gt_iff_lt] at h1
    obtain ⟨_, g1, g2, g3, g4, g5, g6⟩ := h1
    rw [int_add_eq r.x r.w (by omega) hx] at g5
    rw [int_add_eq r.y r.h (by omega) hy] at g6
    exact ⟨g1, g2, g3, g4, g5, g6⟩

/-- Where the product `w * h * bpp` stays inside the `size_t` range, an
accepted region has exactly that many bytes. -/
theorem display_flush_size_exact_of_no_overflow (caps : display_caps_t)
    (r : display_flush_region_t) (hw2 : r.w < 2 ^ 31) (hh2 : r.h < 2 ^ 31)
    (hp : r.w.toNat * r.h.toNat * spec_bpp caps.pixel_format < 2 ^ 32)
    (hok : display_flush_checked (some caps) (some r) = ESP_OK) :
    r.len_bytes = r.w.toNat * r.h.toNat * spec_bpp caps.pixel_format := by
  rw [display_flush_checked_some] at hok
  split_ifs at hok with h1 h2 h3
  all_goals first | exact absurd hok (by decide) | skip
  · simp only [not_or, not_lt, not_le, gt_iff_lt] at h1
    obtain ⟨_, _, _, g3, g4, _, _⟩ := h1
    have hb : 0 < spec_bpp caps.pixel_format := by
      unfold spec_bpp
      split_ifs <;> decide
    rw [← expected_len_eq r _ (le_of_lt g3) (le_of_lt g4) hw2 hh2 hb hp]
    exact not_not.mp h3

/-- C16 (the code at the failing input): on a 320x240 RGB565 panel the region
x = 2147483647, y = 0, w = 1, h = 1 with a 2-byte buffer is accepted with
`ESP_OK`: the 32-bit sum `x + w` wraps to -2147483648, which does not exceed
the width, although the region ends at column 2147483648, outside the
panel. -/
theorem display_flush_accepts_region_outside_panel :
    in_range ⟨320, 240, DISPLAY_FMT_RGB565_LE, false⟩ ⟨2147483647, 0, 1, 1, some 1, 2⟩ ∧
    int_add 2147483647 1 = -2147483648 ∧
    display_flush_checked (some ⟨320, 240, DISPLAY_FMT_RGB565_LE, false⟩)
      (some ⟨2147483647, 0, 1, 1, some 1, 2⟩) = ESP_OK ∧
    ¬ ((2147483647 : Int) + 1 ≤ 320) := by
  decide

/-- C17 (the code at the failing input): on a 65536x32769 RGB565 panel the
full-panel region with `len_bytes` = 131072 is accepted with `ESP_OK`: the
32-bit `size_t` product wraps to 131072, while the region really takes
65536 * 32769 * 2 = 4295098368 bytes. -/
theorem display_flush_accepts_truncated_length :
    in_range ⟨65536, 32769, DISPLAY_FMT_RGB565_LE, false⟩
      ⟨0, 0, 65536, 32769, some 1, 131072⟩ ∧
    expected_len ⟨0, 0, 65536, 32769, some 1, 131072⟩ 2 = 131072 ∧
    display_flush_checked (some ⟨65536, 32769, DISPLAY_FMT_RGB565_LE, false⟩)
      (some ⟨0, 0, 65536, 32769, some 1, 131072⟩) = ESP_OK ∧
    (65536 * 32769 * 2 : Nat) = 4295098368 ∧ (131072 : Nat) ≠ 65536 * 32769 * 2 := by
  decide

/-- The order of the tests of `display_flush_checked`, every expression read
as the 32-bit target computes it: NULL `caps`, region or pixel pointer,
x < 0, y < 0, w <= 0, h <= 0, wrapped x + w > width or wrapped
y + h > height give `ESP_ERR_INVALID_ARG`; otherwise a format other than the
three known ones gives `ESP_ERR_NOT_SUPPORTED`; otherwise `len_bytes`
different from the wrapped product gives `ESP_ERR_INVALID_SIZE`; otherwise the
result is `ESP_OK`, and `bgr_order` has no influence.  The wrapped sums and
product are the mathematical ones whenever those fit the 32-bit types. -/
theorem display_flush_checked_precedence (caps : display_caps_t)
    (r : display_flush_region_t) :
    (∀ r0, display_flush_checked none r0 = ESP_ERR_INVALID_ARG) ∧
    (∀ c0, display_flush_checked c0 none = ESP_ERR_INVALID_ARG) ∧
    display_flush_checked (some caps) (some r) =
      (if r.pixels = none ∨ r.x < 0 ∨ r.y < 0 ∨ r.w ≤ 0 ∨ r.h ≤ 0
          ∨ int_add r.x r.w > caps.width ∨ int_add r.y r.h > caps.height then
        ESP_ERR_INVALID_ARG
      else if ¬ (caps.pixel_format = DISPLAY_FMT_RGB565_LE
          ∨ caps.pixel_format = DISPLAY_FMT_RGB565_BE
          ∨ caps.pixel_format = DISPLAY_FMT_RGB888) then
        ESP_ERR_NOT_SUPPORTED
      else if r.len_bytes ≠ expected_len r (spec_bpp caps.pixel_format) then
        ESP_ERR_INVALID_SIZE
      else ESP_OK) ∧
    (∀ bgr : Bool,
      display_flush_checked (some ⟨caps.width, caps.height, caps.pixel_format, bgr⟩) (some r) =
        display_flush_checked (some caps) (some r)) ∧
    display_flush_checked (some ⟨320, 240, 7, false⟩) (some ⟨300, 0, 100, 10, some 1, 0⟩) =
      ESP_ERR_INVALID_ARG ∧
    display_flush_checked (some ⟨320, 240, 7, false⟩) (some ⟨0, 0, 100, 10, some 1, 0⟩) =
      ESP_ERR_NOT_SUPPORTED ∧
    display_flush_checked (some ⟨320, 240, DISPLAY_FMT_RGB888, true⟩)
      (some ⟨0, 0, 100, 10, some 1, 2000⟩) = ESP_ERR_INVALID_SIZE ∧
    display_flush_checked (some ⟨320, 240, DISPLAY_FMT_RGB888, true⟩)
      (some ⟨0, 0, 100, 10, some 1, 3000⟩) = ESP_OK ∧
    (0 ≤ r.x → 0 < r.w → r.x + r.w < 2 ^ 31 → int_add r.x r.w = r.x + r.w) ∧
    (0 ≤ r.y → 0 < r.h → r.y + r.h < 2 ^ 31 → int_add r.y r.h = r.y + r.h) ∧
    (0 < r.w → 0 < r.h → r.w < 2 ^ 31 → r.h < 2 ^ 31 →
      r.w.toNat * r.h.toNat * spec_bpp caps.pixel_format < 2 ^ 32 →
      expected_len r (spec_bpp caps.pixel_format) =
        r.w.toNat * r.h.toNat * spec_bpp caps.pixel_format) := by
  refine ⟨fun _ => rfl, ?_, display_flush_checked_some caps r, ?_, by decide, by decide,
    by decide, by decide, ?_, ?_, ?_⟩
  · intro c0
    cases c0 <;> rfl
  · intro bgr
    rw [display_flush_checked_some, display_flush_checked_some]
  · intro h0 h1 h2
    exact int_add_eq _ _ (by omega) h2
  · intro h0 h1 h2
    exact int_add_eq _ _ (by omega) h2
  · intro h0 h1 h2 h3 h4
    have hb : 0 < spec_bpp caps.pixel_format := by
      unfold spec_bpp
      split_ifs <;> decide
    exact expected_len_eq r _ (le_of_lt h0) (le_of_lt h1) h2 h3 hb h4

/-- C18 (the code at the failing inputs): the stated order of results does not
hold where the 32-bit arithmetic wraps.  On a 320x240 RGB888 panel the region
x = 0, y = 2147483647, w = 1, h = 1 has y + h > height, for which the claim
gives `ESP_ERR_INVALID_ARG`, yet the code returns `ESP_OK`.  On a 65536x21846
RGB888 panel the full-panel region with `len_bytes` = 131072 meets no
`ESP_ERR_INVALID_ARG` condition, has a known format and a length different
from w * h * bpp = 4295098368, for which the claim gives
`ESP_ERR_INVALID_SIZE`, yet the code returns `ESP_OK`. -/
theorem display_flush_precedence_fails_on_overflow :
    in_range ⟨320, 240, DISPLAY_FMT_RGB888, true⟩ ⟨0, 2147483647, 1, 1, some 1, 3⟩ ∧
    ((2147483647 : Int) + 1 > 240) ∧
    display_flush_checked (some ⟨320, 240, DISPLAY_FMT_RGB888, true⟩)
      (some ⟨0, 2147483647, 1, 1, some 1, 3⟩) = ESP_OK ∧
    ESP_OK ≠ ESP_ERR_INVALID_ARG ∧
    in_range ⟨65536, 21846, DISPLAY_FMT_RGB888, false⟩
      ⟨0, 0, 65536, 21846, some 1, 131072⟩ ∧
    ¬ ((0 : Int) < 0 ∨ (0 : Int) < 0 ∨ (65536 : Int) ≤ 0 ∨ (21846 : Int) ≤ 0 ∨
        (0 : Int) + 65536 > 65536 ∨ (0 : Int) + 21846 > 21846) ∧
    ((131072 : Int) ≠ 65536 * 21846 * 3) ∧
    display_flush_checked (some ⟨65536, 21846, DISPLAY_FMT_RGB888, false⟩)
      (some ⟨0, 0, 65536, 21846, some 1, 131072⟩) = ESP_OK ∧
    ESP_OK ≠ ESP_ERR_INVALID_SIZE := by
  decide

end DisplayFlush

namespace ComponentTemplate

open EspIdf

/-! ## Periodic GPIO component -/

theorem init_eq (valid : Int → Bool) (gpio_config : gpio_config_t → esp_err_t)
    (cfg : esp32_component_template_config_t) (s : State) :
    esp32_component_template_init valid gpio_config (some cfg) s =
      if cfg.period_ms = 0 ∨ valid cfg.gpio_num = false then (ESP_ERR_INVALID_ARG, s)
      else if gpio_config (io_for cfg) ≠ ESP_OK then (gpio_config (io_for cfg), s)
      else (ESP_OK, ⟨s.s_task, cfg, true⟩) := by
  simp only [esp32_component_template_init]
  by_cases hp : cfg.period_ms = 0
  · simp [hp]
  · by_cases hv : valid cfg.gpio_num = true
    · simp [hp, hv, Nat.pos_of_ne_zero hp]
    · simp [hp, hv, Nat.pos_of_ne_zero hp]

theorem start_eq (xTaskCreate : Option Nat) (s : State) :
    esp32_component_template_start xTaskCreate s =
      if s.s_initialized = false ∨ s.s_task ≠ none then (ESP_ERR_INVALID_STATE, s)
      else
        match xTaskCreate with
        | none => (ESP_ERR_NO_MEM, s)
        | some handle => (ESP_OK, ⟨some handle, s.s_cfg, s.s_initialized⟩) := by
  simp only [esp32_component_template_start]
  by_cases hi : s.s_initialized = true
  · by_cases ht : s.s_task = none
    · simp [hi, ht]
    · simp [hi, ht]
  · simp [hi]

theorem stop_eq (s : State) :
    esp32_component_template_stop s =
      if s.s_task = none then (ESP_ERR_INVALID_STATE, s)
      else (ESP_OK, ⟨none, s.s_cfg, s.s_initialized⟩) := by
  simp only [esp32_component_template_stop]
  by_cases ht : s.s_task = none
  · simp [ht]
  · simp [ht]

/-- The two facts every call preserves: a task is held only when the
component is initialised, and an initialised component stores a configuration
that passed the checks of `init`. -/
theorem step_preserves (valid : Int → Bool) (op : Op) (s : State)
    (h : (s.s_task ≠ none → s.s_initialized = true) ∧
      (s.s_initialized = true → 0 < s.s_cfg.period_ms ∧ valid s.s_cfg.gpio_num = true)) :
    ((step valid op s).2.s_task ≠ none → (step valid op s).2.s_initialized = true) ∧
    ((step valid op s).2.s_initialized = true →
      0 < (step valid op s).2.s_cfg.period_ms ∧
      valid (step valid op s).2.s_cfg.gpio_num = true) := by
  obtain ⟨h1, h2⟩ := h
  cases op with
  | init gpio_config cfg =>
    cases cfg with
    | none => exact ⟨h1, h2⟩
    | some cfg =>
      simp only [step]
      rw [init_eq]
      split_ifs with c1 c2
      · exact ⟨h1, h2⟩
      · exact ⟨h1, h2⟩
      · simp only [not_or] at c1
        refine ⟨fun _ => rfl, fun _ => ⟨Nat.pos_of_ne_zero c1.1, ?_⟩⟩
        simpa using c1.2
  | start xTaskCreate =>
    simp only [step]
    rw [start_eq]
    by_cases c : s.s_initialized = false ∨ s.s_task ≠ none
    · rw [if_pos c]
      exact ⟨h1, h2⟩
    · rw [if_neg c]
      cases xTaskCreate with
      | none => exact ⟨h1, h2⟩
      | some handle =>
        have hi : s.s_initialized = true := by
          cases hb : s.s_initialized with
          | false => exact absurd (Or.inl hb) c
          | true => rfl
        exact ⟨fun _ => hi, h2⟩
  | stop =>
    simp only [step]
    rw [stop_eq]
    by_cases c : s.s_task = none
    · rw [if_pos c]
      exact ⟨h1, h2⟩
    · rw [if_neg c]
      exact ⟨fun hn => absurd rfl hn, h2⟩

theorem run_preserves (valid : Int → Bool) (ops : List Op) (s : State)
    (h : (s.s_task ≠ none → s.s_initialized = true) ∧
      (s.s_initialized = true → 0 < s.s_cfg.period_ms ∧ valid s.s_cfg.gpio_num = true)) :
    ((run valid ops s).s_task ≠ none → (run valid ops s).s_initialized = true) ∧
    ((run valid ops s).s_initialized = true →
      0 < (run valid ops s).s_cfg.period_ms ∧ valid (run valid ops s).s_cfg.gpio_num = true) := by
  induction ops generalizing s with
  | nil => exact h
  | cons op rest ih => exact ih _ (step_preserves valid op s h)

theorem run_initial_preserves (valid : Int → Bool) (ops : List Op) :
    ((run valid ops State.initial).s_task ≠ none →
      (run valid ops State.initial).s_initialized = true) ∧
    ((run valid ops State.initial).s_initialized = true →
      0 < (run valid ops State.initial).s_cfg.period_ms ∧
      valid (run valid ops State.initial).s_cfg.gpio_num = true) :=
  run_preserves valid ops State.initial
    ⟨fun h => absurd rfl h, fun h => absurd h (by decide)⟩

/-- C19: in every state `s` reached from the initial one by a sequence of
init/start/stop calls, a task handle is held only if the component is
initialised; start returns `ESP_ERR_INVALID_STATE` when not initialised or
when a task is held, `ESP_ERR_NO_MEM` when task creation fails and otherwise
`ESP_OK` with the new task held; stop returns `ESP_ERR_INVALID_STATE` when no
task is held and otherwise `ESP_OK` with no task held; a call that returns an
error leaves the three variables as they were; and after a successful stop,
start succeeds again when task creation succeeds. -/
theorem component_lifecycle (valid : Int → Bool) (ops : List Op) (s : State)
    (hs : s = run valid ops State.initial) (op : Op) (xTaskCreate : Option Nat)
    (handle : Nat) :
    (s.s_task ≠ none → s.s_initialized = true) ∧
    (s.s_initialized = false ∨ s.s_task ≠ none →
      esp32_component_template_start xTaskCreate s = (ESP_ERR_INVALID_STATE, s)) ∧
    (s.s_initialized = true ∧ s.s_task = none →
      esp32_component_template_start none s = (ESP_ERR_NO_MEM, s) ∧
      esp32_component_template_start (some handle) s =
        (ESP_OK, ⟨some handle, s.s_cfg, true⟩)) ∧
    (s.s_task = none → esp32_component_template_stop s = (ESP_ERR_INVALID_STATE, s)) ∧
    (s.s_task ≠ none →
      esp32_component_template_stop s = (ESP_OK, ⟨none, s.s_cfg, s.s_initialized⟩)) ∧
    ((step valid op s).1 ≠ ESP_OK → (step valid op s).2 = s) ∧
    ((esp32_component_template_stop s).1 = ESP_OK →
      esp32_component_template_start (some handle) (esp32_component_template_stop s).2 =
        (ESP_OK, ⟨some handle, s.s_cfg, true⟩)) := by
  have hinv : s.s_task ≠ none → s.s_initialized = true := by
    rw [hs]
    exact (run_initial_preserves valid ops).1
  refine ⟨hinv, ?_, ?_, ?_, ?_, ?_, ?_⟩
  · intro h
    rw [start_eq, if_pos h]
  · rintro ⟨hi, ht⟩
    have hn : ¬ (s.s_initialized = false ∨ s.s_task ≠ none) := by
      rintro (h | h)
      · rw [hi] at h
        exact absurd h (by decide)
      · exact h ht
    constructor
    · rw [start_eq, if_neg hn]
    · rw [start_eq, if_neg hn, hi]
  · intro h
    rw [stop_eq, if_pos h]
  · intro h
    rw [stop_eq, if_neg h]
  · cases op with
    | init gpio_config cfg =>
      cases cfg with
      | none =>
        intro _
        rfl
      | some cfg =>
        simp only [step]
        rw [init_eq]
        split_ifs with c1 c2
        · intro _
          rfl
        · intro _
          rfl
        · intro h
          exact absurd rfl h
    | start created =>
      simp only [step]
      rw [start_eq]
      split_ifs with c1
      · intro _
        rfl
      · cases created with
        | none =>
          intro _
          rfl
        | some hd =>
          intro h
          exact absurd rfl h
    | stop =>
      simp only [step]
      rw [stop_eq]
      split_ifs with c1
      · intro _
        rfl
      · intro h
        exact absurd rfl h
  · rw [stop_eq]
    by_cases ht : s.s_task = none
    · rw [if_pos ht]
      intro h
      have h2 : ESP_ERR_INVALID_STATE = ESP_OK := h
      exact absurd h2 (by decide)
    · rw [if_neg ht]
      intro _
      have hi : s.s_initialized = true := hinv ht
      rw [start_eq]
      simp [hi]

/-- C19 witness: after `init` and a successful `start`, `stop` succeeds and
releases the task. -/
theorem component_lifecycle_witness :
    esp32_component_template_stop ⟨some 7, ⟨2, 500, true⟩, true⟩ =
      (ESP_OK, ⟨none, ⟨2, 500, true⟩, true⟩) :=
  (component_lifecycle (fun _ => true)
    [Op.init (fun _ => ESP_OK) (some ⟨2, 500, true⟩), Op.start (some 7)]
    ⟨some 7, ⟨2, 500, true⟩, true⟩ (by decide) Op.stop none 0).2.2.2.2.1 (by decide)

/-- C20: `esp32_component_template_init` returns `ESP_ERR_INVALID_ARG` for a
NULL `cfg`, for `period_ms` 0 and for a GPIO number that is not a valid
output, and the driver's error when `gpio_config` fails, each time leaving the
variables as they were; it returns `ESP_OK` only when all of this passes, and
then stores a copy of `cfg` and sets the flag.  So whenever the component is
initialised, after any sequence of calls, the stored configuration has
`period_ms` > 0 and a valid output GPIO number. -/
theorem init_validation_and_atomicity (valid : Int → Bool)
    (gpio_config : gpio_config_t → esp_err_t) (cfg : esp32_component_template_config_t)
    (s : State) (ops : List Op) :
    esp32_component_template_init valid gpio_config none s = (ESP_ERR_INVALID_ARG, s) ∧
    (cfg.period_ms = 0 →
      esp32_component_template_init valid gpio_config (some cfg) s =
        (ESP_ERR_INVALID_ARG, s)) ∧
    (valid cfg.gpio_num = false →
      esp32_component_template_init valid gpio_config (some cfg) s =
        (ESP_ERR_INVALID_ARG, s)) ∧
    (0 < cfg.period_ms → valid cfg.gpio_num = true → gpio_config (io_for cfg) ≠ ESP_OK →
      esp32_component_template_init valid gpio_config (some cfg) s =
        (gpio_config (io_for cfg), s)) ∧
    (0 < cfg.period_ms → valid cfg.gpio_num = true → gpio_config (io_for cfg) = ESP_OK →
      esp32_component_template_init valid gpio_config (some cfg) s =
        (ESP_OK, ⟨s.s_task, cfg, true⟩)) ∧
    ((esp32_component_template_init valid gpio_config (some cfg) s).1 = ESP_OK →
      0 < cfg.period_ms ∧ valid cfg.gpio_num = true ∧ gpio_config (io_for cfg) = ESP_OK) ∧
    (∀ c, (esp32_component_template_init valid gpio_config c s).1 ≠ ESP_OK →
      (esp32_component_template_init valid gpio_config c s).2 = s) ∧
    ((run valid ops State.initial).s_initialized = true →
      0 < (run valid ops State.initial).s_cfg.period_ms ∧
      valid (run valid ops State.initial).s_cfg.gpio_num = true) := by
  refine ⟨rfl, ?_, ?_, ?_, ?_, ?_, ?_, (run_initial_preserves valid ops).2⟩
  · intro h
    rw [init_eq, if_pos (Or.inl h)]
  · intro h
    rw [init_eq, if_pos (Or.inr h)]
  · intro hp hv hg
    have hn : ¬ (cfg.period_ms = 0 ∨ valid cfg.gpio_num = false) := by
      rintro (h | h)
      · omega
      · rw [hv] at h
        exact absurd h (by decide)
    rw [init_eq, if_neg hn, if_pos hg]
  · intro hp hv hg
    have hn : ¬ (cfg.period_ms = 0 ∨ valid cfg.gpio_num = false) := by
      rintro (h | h)
      · omega
      · rw [hv] at h
        exact absurd h (by decide)
    rw [init_eq, if_neg hn, if_neg (not_not.mpr hg)]
  · rw [init_eq]
    split_ifs with c1 c2
    · intro h
      have h2 : ESP_ERR_INVALID_ARG = ESP_OK := h
      exact absurd h2 (by decide)
    · intro h
      exact absurd h c2
    · intro _
      simp only [not_or] at c1
      refine ⟨Nat.pos_of_ne_zero c1.1, by simpa using c1.2, not_not.mp c2⟩
  · intro c
    cases c with
    | none =>
      intro _
      rfl
    | some c =>
      rw [init_eq]
      split_ifs with c1 c2
      · intro _
        rfl
      · intro _
        rfl
      · intro h
        exact absurd rfl h

end ComponentTemplate
